import Mathlib

/-!
Verification development for the GO knowledge-graph construction scripts
(`kg_scripts/go_kg_builder.py`, `kg_scripts/go_terms_interconnector.py`).

The Python code drives a Neo4j property-graph store through Cypher queries.
This file gives a shallow embedding: the store is modelled by explicit Lean
structures (lists of nodes and edges), and every modelled operation is a pure
function translated clause-by-clause from the Cypher/Python source.  Cypher
queries are executed clause-pipeline style: a `MATCH` produces a list of rows,
subsequent write clauses are applied to those rows in order, and a planner
`Eager` barrier between a pattern read and a conflicting write is modelled by
computing the full row expansion against the pre-write store before applying
the writes (this is Neo4j's documented behaviour for such queries).
-/

namespace GoKG

/-! ## Gene store and `_consolidate_duplicate_genes`
(`go_kg_builder.py`, lines 1381-1440)

A `Gene` node as created by phases 5-8: every property that the consolidation
query reads or writes is present, absent Neo4j properties are `none`. -/

/-- Properties carried on an `ANNOTATED_WITH` edge that the consolidation
query reads (`source_file` is the equivalence key; the rest travel along via
`SET new_r = properties(r)`). -/
structure AnnProps where
  source_file : String
  evidence_code : Option String := none
  qualifier : Option String := none
  deriving DecidableEq, Repr

/-- An `ANNOTATED_WITH` edge from a `Gene` node (by internal node id) to a
`GOTerm` node (by `go_id`).  `edgeId` is the Neo4j-internal relationship
identity, needed to model `DELETE r`. -/
structure AnnEdge where
  edgeId : Nat
  geneId : Nat
  goId : String
  props : AnnProps
  deriving DecidableEq, Repr

/-- A `Gene` node.  `nodeId` is the Neo4j-internal node identity (`g1 <> g2`
in Cypher compares node identities). -/
structure Gene where
  nodeId : Nat
  symbol : Option String := none
  name : Option String := none
  uniprot_id : Option String := none
  entrez_id : Option String := none
  synonyms : Option (List String) := none
  source_files : Option (List String) := none
  consolidated : Option Bool := none
  last_updated : Option String := none
  deriving DecidableEq, Repr

/-- The part of the graph store that `_consolidate_duplicate_genes` touches:
`Gene` nodes and their outgoing `ANNOTATED_WITH` edges.  `nextEdgeId` supplies
fresh relationship identities for `CREATE`. -/
structure GeneStore where
  genes : List Gene
  annEdges : List AnnEdge
  nextEdgeId : Nat
  deriving DecidableEq, Repr

/-- The row filter of the consolidation query's initial `MATCH`:
`g1 <> g2 AND g1.symbol IS NOT NULL AND g2.symbol IS NOT NULL AND
g1.symbol = g2.symbol`. -/
def symbolMatch (a b : Gene) : Bool :=
  a.nodeId != b.nodeId && a.symbol.isSome && b.symbol.isSome && a.symbol == b.symbol

/-- The rows produced by `MATCH (g1:Gene), (g2:Gene) WHERE ...`: every ordered
pair of distinct genes sharing a non-null symbol (Cypher's Cartesian product
yields both orderings of each duplicate pair).  Rows are kept as pairs of node
identities; property reads happen against the current store. -/
def duplicatePairs (s : GeneStore) : List (Nat × Nat) :=
  s.genes.flatMap fun a =>
    (s.genes.filter fun b => symbolMatch a b).map fun b => (a.nodeId, b.nodeId)

/-- Look a gene up by node identity. -/
def getGene (s : GeneStore) (i : Nat) : Option Gene :=
  s.genes.find? fun g => g.nodeId == i

/-- Replace the gene with node identity `i`. -/
def updateGene (s : GeneStore) (i : Nat) (g' : Gene) : GeneStore :=
  { s with genes := s.genes.map fun g => if g.nodeId == i then g' else g }

/-- The `CASE` expression merging synonym lists:
`NULL`-aware union, `g1`'s entries first, `g2`'s deduplicated against them. -/
def mergeSynonyms : Option (List String) → Option (List String) → Option (List String)
  | none, s2 => s2
  | some l1, none => some l1
  | some l1, some l2 => some (l1 ++ l2.filter fun syn => !(l1.contains syn))

/-- The `SET` clause of the consolidation query applied to one row `(g1, g2)`:
first-non-null-wins identifier copies (`coalesce`), synonym and source-file
union, `consolidated = true`, `last_updated = datetime()` (the timestamp value
is opaque to every claim and modelled by a fixed marker string). -/
def setClause (g1 g2 : Gene) : Gene :=
  { g1 with
    uniprot_id := g1.uniprot_id <|> g2.uniprot_id
    entrez_id := g1.entrez_id <|> g2.entrez_id
    name := g1.name <|> g2.name
    synonyms := mergeSynonyms g1.synonyms g2.synonyms
    source_files := some ((g1.source_files.getD []) ++
      ((g2.source_files.getD []).filter fun f => !((g1.source_files.getD []).contains f)))
    consolidated := some true
    last_updated := some "datetime()" }

/-- Run the `SET` clause over all rows in order (later rows read the writes of
earlier rows, matching Cypher's per-row clause execution). -/
def runSetPhase (s : GeneStore) (rows : List (Nat × Nat)) : GeneStore :=
  rows.foldl
    (fun st p =>
      match getGene st p.1, getGene st p.2 with
      | some g1, some g2 => updateGene st p.1 (setClause g1 g2)
      | _, _ => st)
    s

/-- The `NOT EXISTS { (g1)-[:ANNOTATED_WITH {source_file: r.source_file}]->(go) }`
subquery: does an equivalent edge (same target term, same source-file
provenance) already sit on `g1`? -/
def equivEdgeExists (s : GeneStore) (g1 : Nat) (goId : String) (file : String) : Bool :=
  s.annEdges.any fun e =>
    e.geneId == g1 && e.goId == goId && e.props.source_file == file

/-- The expansion `MATCH (g2)-[r:ANNOTATED_WITH]->(go) WHERE NOT EXISTS {...}`
for one row: the edges of `g2` that have no equivalent edge on `g1`. -/
def movesOfRow (s : GeneStore) (row : Nat × Nat) : List AnnEdge :=
  s.annEdges.filter fun e =>
    e.geneId == row.2 && !(equivEdgeExists s row.1 e.goId e.props.source_file)

/-- Apply one edge move: `CREATE (g1)-[new_r:ANNOTATED_WITH]->(go)`,
`SET new_r = properties(r)`, `DELETE r`. -/
def applyMove (s : GeneStore) (m : Nat × AnnEdge) : GeneStore :=
  { s with
    annEdges := (s.annEdges.filter fun e => e.edgeId != m.2.edgeId) ++
      [{ edgeId := s.nextEdgeId, geneId := m.1, goId := m.2.goId, props := m.2.props }]
    nextEdgeId := s.nextEdgeId + 1 }

/-- Remove a node and (`DETACH`) all its incident edges. -/
def detachDelete (s : GeneStore) (i : Nat) : GeneStore :=
  { s with
    genes := s.genes.filter fun g => g.nodeId != i
    annEdges := s.annEdges.filter fun e => e.geneId != i }

/-- The full consolidation query of `_consolidate_duplicate_genes`
(`go_kg_builder.py` lines 1387-1423), clause by clause:

1. `MATCH (g1:Gene), (g2:Gene) WHERE g1 <> g2 AND g1.symbol = g2.symbol ...`
   produces the ordered rows `duplicatePairs`;
2. the `SET` clause runs per row;
3. `WITH g1, g2  MATCH (g2)-[r:ANNOTATED_WITH]->(go) WHERE NOT EXISTS {...}`
   expands each row to its movable edges; the planner places an `Eager`
   barrier here, so the expansion is computed against the post-`SET`,
   pre-move store, and rows with no movable edge are dropped by the `MATCH`;
4. `CREATE`/`SET`/`DELETE` apply the moves in row order;
5. `WITH g1, g2, count(*) as relationships_moved  DETACH DELETE g2` deletes
   the `g2` of every surviving row (only rows that kept at least one movable
   edge reach this clause). -/
def consolidate_duplicate_genes (s : GeneStore) : GeneStore :=
  let rows := duplicatePairs s
  let s1 := runSetPhase s rows
  let moves := rows.flatMap fun r => (movesOfRow s1 r).map fun e => (r.1, e)
  let s2 := moves.foldl applyMove s1
  let surviving := rows.filter fun r => !(movesOfRow s1 r).isEmpty
  surviving.foldl (fun st r => detachDelete st r.2) s2

/-- Store exercising consolidation on two `Gene` nodes that share the symbol
`TP53`, one created by the annotation phase (accession populated), one by the
numeric-id cross-reference phase (numeric id populated), each carrying one
annotation edge of its own provenance. -/
def tp53Store : GeneStore :=
  { genes := [
      { nodeId := 0, symbol := some "TP53", uniprot_id := some "P04637",
        source_files := some ["goa_human.gaf.gz"] },
      { nodeId := 1, symbol := some "TP53", entrez_id := some "7157",
        source_files := some ["collapsed_go.entrez"] } ]
    annEdges := [
      { edgeId := 0, geneId := 0, goId := "GO:0000001",
        props := { source_file := "goa_human.gaf.gz" } },
      { edgeId := 1, geneId := 1, goId := "GO:0000002",
        props := { source_file := "collapsed_go.entrez" } } ]
    nextEdgeId := 2 }

/-- Store exercising edge preservation: two `Gene` nodes sharing symbol
`BRCA1`; the redundant one carries an annotation edge to `GO:0000011` that
exists nowhere else in the store. -/
def brca1Store : GeneStore :=
  { genes := [
      { nodeId := 10, symbol := some "BRCA1", uniprot_id := some "P38398",
        source_files := some ["goa_human.gaf.gz"] },
      { nodeId := 11, symbol := some "BRCA1",
        source_files := some ["collapsed_go.symbol"] } ]
    annEdges := [
      { edgeId := 0, geneId := 10, goId := "GO:0000010",
        props := { source_file := "goa_human.gaf.gz" } },
      { edgeId := 1, geneId := 11, goId := "GO:0000011",
        props := { source_file := "collapsed_go.symbol" } } ]
    nextEdgeId := 2 }

/-- Store in which no two distinct genes share a non-null symbol (distinct
symbols, plus a gene with no symbol at all). -/
def distinctSymbolStore : GeneStore :=
  { genes := [
      { nodeId := 0, symbol := some "BRCA1", uniprot_id := some "P38398" },
      { nodeId := 1, symbol := some "BRCA2" },
      { nodeId := 2 } ]
    annEdges := [
      { edgeId := 0, geneId := 0, goId := "GO:0000010",
        props := { source_file := "goa_human.gaf.gz" } } ]
    nextEdgeId := 1 }

/-! ## Python string primitives

Faithful models of the Python string operations used by the parsers.  They
are written by structural recursion over the character list of the string
(Python's `str` operations are defined on character sequences), so that every
definition evaluates inside the Lean kernel.  Python indices are returned as
`Int` so that `find`'s `-1` convention is kept. -/

/-- Drop leading characters satisfying `p`. -/
def dropWhileChar (p : Char → Bool) : List Char → List Char
  | [] => []
  | x :: xs => if p x then dropWhileChar p xs else x :: xs

/-- Python `s.strip()` (whitespace on both ends). -/
def pyTrim (s : String) : String :=
  ⟨(dropWhileChar Char.isWhitespace
      ((dropWhileChar Char.isWhitespace s.data).reverse)).reverse⟩

/-- Python `s.startswith(pre)`. -/
def pyStartsWith (s pre : String) : Bool :=
  pre.data.isPrefixOf s.data

/-- Python `s.endswith(suf)`. -/
def pyEndsWith (s suf : String) : Bool :=
  suf.data.reverse.isPrefixOf s.data.reverse

/-- Python `c in s` for a single character. -/
def pyContainsChar (s : String) (c : Char) : Bool :=
  s.data.any (· == c)

/-- Helper for `s.split(c)`: current piece accumulated in reverse. -/
def pySplitCharAux (c : Char) : List Char → List Char → List String
  | [], acc => [⟨acc.reverse⟩]
  | x :: xs, acc =>
    if x = c then ⟨acc.reverse⟩ :: pySplitCharAux c xs []
    else pySplitCharAux c xs (x :: acc)

/-- Python `s.split(c)` for a one-character separator (empty pieces kept). -/
def pySplitChar (s : String) (c : Char) : List String :=
  pySplitCharAux c s.data []

/-- Helper for splitting at every character satisfying `p`. -/
def pySplitPredAux (p : Char → Bool) : List Char → List Char → List String
  | [], acc => [⟨acc.reverse⟩]
  | x :: xs, acc =>
    if p x then ⟨acc.reverse⟩ :: pySplitPredAux p xs []
    else pySplitPredAux p xs (x :: acc)

/-- Split at every character satisfying `p`, keeping empty pieces. -/
def pySplitPred (s : String) (p : Char → Bool) : List String :=
  pySplitPredAux p s.data []

/-- Python `s.replace(c, r)` for one-character arguments. -/
def pyReplaceChar (s : String) (c r : Char) : String :=
  ⟨s.data.map fun x => if x = c then r else x⟩

/-- Helper for `s.split(c, 1)`: split a character list at the first
occurrence of `c`. -/
def splitFirstAux (c : Char) : List Char → Option (List Char × List Char)
  | [] => none
  | x :: xs =>
    if x = c then some ([], xs)
    else
      match splitFirstAux c xs with
      | some (l, r) => some (x :: l, r)
      | none => none

/-- Python `s.split(c, 1)` for a one-character separator: `none` when the
separator does not occur (in which case Python would return a one-element
list). -/
def splitFirst (s : String) (c : Char) : Option (String × String) :=
  match splitFirstAux c s.data with
  | some (l, r) => some (⟨l⟩, ⟨r⟩)
  | none => none

/-- Index of the first occurrence of `c`, counting from 0. -/
def pyFindAux (c : Char) : List Char → Option Nat
  | [] => none
  | x :: xs => if x = c then some 0 else (pyFindAux c xs).map (· + 1)

/-- Python `s.find(c)`: first index of `c`, or `-1`. -/
def pyFind (s : String) (c : Char) : Int :=
  match pyFindAux c s.data with
  | some i => (i : Int)
  | none => -1

/-- Index of the last occurrence of `c` in a character list, or `-1`. -/
def pyRFindIn (l : List Char) (c : Char) : Int :=
  (List.range l.length).foldl
    (fun acc i => if l.getD i ' ' = c then (i : Int) else acc) (-1)

/-- Python `s.rfind(c)`. -/
def pyRFind (s : String) (c : Char) : Int :=
  pyRFindIn s.data c

/-- Python `s.rfind(c, 0, stop)`: last occurrence strictly before `stop`. -/
def pyRFindBefore (s : String) (c : Char) (stop : Nat) : Int :=
  pyRFindIn (s.data.take stop) c

/-- Python `s[a:b]` for non-negative bounds (clamping like Python). -/
def pySlice (s : String) (a b : Nat) : String :=
  ⟨(s.data.take b).drop a⟩

/-- Drop leading occurrences of `c`. -/
def stripCharLeft (c : Char) : List Char → List Char
  | [] => []
  | x :: xs => if x = c then stripCharLeft c xs else x :: xs

/-- Python `s.strip(c)` for a one-character argument. -/
def pyStripChar (s : String) (c : Char) : String :=
  ⟨(stripCharLeft c ((stripCharLeft c s.data).reverse)).reverse⟩

/-- Python substring containment (`sub in s`). -/
def containsSub (s sub : String) : Bool :=
  (List.range (s.data.length + 1)).any fun i => sub.data.isPrefixOf (s.data.drop i)

/-- Python `s.split()` with no argument: split on whitespace runs, dropping
empty pieces. -/
def pySplitWs (s : String) : List String :=
  (pySplitPred s fun c => c.isWhitespace).filter (· ≠ "")

/-- Python `s.upper()` (ASCII). -/
def pyUpper (s : String) : String :=
  ⟨s.data.map Char.toUpper⟩

/-- Python `s.lower()` (ASCII). -/
def pyLower (s : String) : String :=
  ⟨s.data.map Char.toLower⟩

/-! ## The OBO stanza parser (`_parse_obo_file`, `go_kg_builder.py` 358-511)

A parsed term record is the dict accumulated for one `[Term]` stanza; keys
that Python leaves absent until first assignment are `Option` fields, keys
initialised to `[]` are list fields. -/

/-- One parsed `synonym:` line: text, scope tag, reference list. -/
structure OboSyn where
  text : String
  scope : String
  refs : List String
  deriving DecidableEq, Repr

/-- One parsed `is_a:` or `relationship:` line. -/
structure OboRel where
  type : String
  target : String
  target_name : Option String
  deriving DecidableEq, Repr

/-- The in-progress term record. -/
structure OboTerm where
  id : Option String := none
  name : Option String := none
  namespace' : Option String := none
  definition : Option String := none
  def_refs : Option (List String) := none
  comment : Option String := none
  synonyms : List OboSyn := []
  alt_ids : List String := []
  xrefs : List String := []
  subsets : List String := []
  is_obsolete : Option Bool := none
  consider : List String := []
  replaced_by : List String := []
  created_by : Option String := none
  creation_date : Option String := none
  relationships : List OboRel := []
  deriving DecidableEq, Repr

/-- Processing of one `key: value` line inside a stanza — the `elif` chain of
`_parse_obo_file` lines 402-495, branch for branch.  The namespace skip-flag
logic lives in the caller (as in the source, where the flag is set right
after the field assignment). -/
def processKV (t : OboTerm) (key value : String) : OboTerm :=
  match key with
  | "id" => { t with id := some value }
  | "name" => { t with name := some value }
  | "namespace" => { t with namespace' := some value }
  | "def" =>
    if pyStartsWith value "\"" && pyContainsChar value '[' then
      let quote_end := pyRFindBefore value '"' (pyFind value '[').toNat
      if quote_end > 0 then
        let t1 := { t with definition := some (pySlice value 1 quote_end.toNat) }
        let bracket_start := pyFind value '['
        let bracket_end := pyRFind value ']'
        if bracket_start > 0 && bracket_end > bracket_start then
          let refsStr := pySlice value (bracket_start.toNat + 1) bracket_end.toNat
          { t1 with def_refs := some (((pySplitChar refsStr ',').map pyTrim).filter (· ≠ "")) }
        else t1
      else t
    else { t with definition := some (pyStripChar value '"') }
  | "comment" => { t with comment := some value }
  | "synonym" =>
    if pyStartsWith value "\"" then
      match pySplitChar value '"' with
      | _ :: p1 :: p2 :: _ =>
        let remainder := pyTrim p2
        let scope :=
          if containsSub remainder "EXACT" then "EXACT"
          else if containsSub remainder "BROAD" then "BROAD"
          else if containsSub remainder "NARROW" then "NARROW"
          else "RELATED"
        let refs :=
          if pyContainsChar remainder '[' && pyContainsChar remainder ']' then
            let bracket_start := pyFind remainder '['
            let bracket_end := pyRFind remainder ']'
            if bracket_start > 0 && bracket_end > bracket_start then
              let refsStr := pySlice remainder (bracket_start.toNat + 1) bracket_end.toNat
              ((pySplitChar refsStr ',').map pyTrim).filter (· ≠ "")
            else []
          else []
        { t with synonyms := t.synonyms ++ [{ text := p1, scope := scope, refs := refs }] }
      | _ => t
    else t
  | "alt_id" => { t with alt_ids := t.alt_ids ++ [value] }
  | "xref" => { t with xrefs := t.xrefs ++ [value] }
  | "subset" => { t with subsets := t.subsets ++ [value] }
  | "is_obsolete" => { t with is_obsolete := some (pyLower value == "true") }
  | "consider" => { t with consider := t.consider ++ [value] }
  | "replaced_by" => { t with replaced_by := t.replaced_by ++ [value] }
  | "created_by" => { t with created_by := some value }
  | "creation_date" => { t with creation_date := some value }
  | "is_a" =>
    match splitFirst value '!' with
    | some (l, r) =>
      { t with relationships := t.relationships ++
          [{ type := "IS_A", target := pyTrim l, target_name := some (pyTrim r) }] }
    | none =>
      { t with relationships := t.relationships ++
          [{ type := "IS_A", target := pyTrim value, target_name := none }] }
  | "relationship" =>
    match pySplitWs value with
    | p0 :: p1 :: _ =>
      let tname :=
        if pyContainsChar value '!' then
          match splitFirst value '!' with
          | some (_, r) => some (pyTrim r)
          | none => none
        else none
      { t with relationships := t.relationships ++
          [{ type := pyUpper p0, target := p1, target_name := tname }] }
    | _ => t
  | _ => t

/-- The syntactic category of an input line, mirroring the `if`/`elif`
conditions of the line loop (all on the stripped line, in source order:
exact `[Term]` first, then any other bracketed section tag, then a
`key: value` line). -/
inductive LineKind where
  | termHeader
  | otherHeader
  | kv (key value : String)
  | blank
  deriving DecidableEq, Repr

/-- Classify one raw line the way the line loop's conditions do, including
`line.split(':', 1)` with both pieces stripped. -/
def classify (line : String) : LineKind :=
  let l := pyTrim line
  if l = "[Term]" then .termHeader
  else if pyStartsWith l "[" && pyEndsWith l "]" then .otherHeader
  else if pyContainsChar l ':' then
    match splitFirst l ':' with
    | some (k, v) => .kv (pyTrim k) (pyTrim v)
    | none => .blank
  else .blank

/-- State of the skip-flag parser: emitted records in emission order, the
in-progress record, the namespace skip flag, and the count of caught
per-line exceptions (the `except` arm of the line loop). -/
structure SkipSt where
  emitted : List OboTerm := []
  cur : Option OboTerm := none
  skip : Bool := false
  errors : Nat := 0
  deriving DecidableEq, Repr

/-- One line of `_parse_obo_file` with the skip-flag optimization.  The dict
insertion `go_terms[current_term['id']] = current_term` raises `KeyError`
when the stanza had no `id:` line; the exception is caught by the per-line
handler, which leaves `current_term` and the skip flag untouched and moves to
the next line (so the statements resetting them are skipped). -/
def skipStep (target : String) (s : SkipSt) (line : String) : SkipSt :=
  match classify line with
  | .termHeader =>
    match s.cur, s.skip with
    | some t, false =>
      match t.id with
      | some _ => { s with emitted := s.emitted ++ [t], cur := some {}, skip := false }
      | none => { s with errors := s.errors + 1 }
    | some _, true => { s with cur := some {}, skip := false }
    | none, _ => { s with cur := some {}, skip := false }
  | .otherHeader =>
    match s.cur, s.skip with
    | some t, false =>
      match t.id with
      | some _ => { s with emitted := s.emitted ++ [t], cur := none, skip := false }
      | none => { s with errors := s.errors + 1 }
    | some _, true => { s with cur := none, skip := false }
    | none, _ => { s with cur := none, skip := false }
  | .kv k v =>
    match s.cur, s.skip with
    | some t, false =>
      let t2 := processKV t k v
      if k == "namespace" && v != target then
        { s with cur := some t2, skip := true }
      else
        { s with cur := some t2 }
    | _, _ => s
  | .blank => s

/-- Full `_parse_obo_file` with the skip-flag early exit: run the line loop,
then the end-of-stream save (`if current_term and
current_term.get('namespace') == self.namespace_full`), whose dict insertion
is outside the per-line `try` — a missing `id` there escapes as an uncaught
`KeyError`.  The result is the emission sequence (the `go_terms` dict is this
sequence folded through keyed insertion). -/
def parse_obo_file (target : String) (lines : List String) : Except String (List OboTerm) :=
  let fin := lines.foldl (skipStep target) {}
  match fin.cur with
  | some t =>
    if t.namespace' == some target then
      match t.id with
      | some _ => .ok (fin.emitted ++ [t])
      | none => .error "KeyError: id"
    else .ok fin.emitted
  | none => .ok fin.emitted

/-- State of the reference parser that never skips. -/
structure FullSt where
  emitted : List OboTerm := []
  cur : Option OboTerm := none
  deriving DecidableEq, Repr

/-- Reference parser step, following the spec's words for "parsing every
stanza fully": identical line handling but no skip flag, and every
accumulated record is emitted at its stanza boundary. -/
def fullStep (f : FullSt) (line : String) : FullSt :=
  match classify line with
  | .termHeader =>
    match f.cur with
    | some t => { f with emitted := f.emitted ++ [t], cur := some {} }
    | none => { f with cur := some {} }
  | .otherHeader =>
    match f.cur with
    | some t => { f with emitted := f.emitted ++ [t], cur := none }
    | none => { f with cur := none }
  | .kv k v =>
    match f.cur with
    | some t => { f with cur := some (processKV t k v) }
    | none => f
  | .blank => f

/-- Reference parse of every stanza, with the last in-progress record emitted
at end of stream. -/
def fullParseAll (lines : List String) : List OboTerm :=
  let fin := lines.foldl fullStep {}
  match fin.cur with
  | some t => fin.emitted ++ [t]
  | none => fin.emitted

/-- Keep only the records whose namespace field equals the target
partition. -/
def filterTarget (target : String) (l : List OboTerm) : List OboTerm :=
  l.filter fun t => t.namespace' == some target

/-- Spec-side reference semantics for claim C5: parse every stanza fully,
then keep only those whose namespace field equals the target partition. -/
def specFullParseFiltered (target : String) (lines : List String) : List OboTerm :=
  filterTarget target (fullParseAll lines)

/-- Well-formedness tracker for a stanza stream: inside a `[Term]` stanza,
count its `namespace:` lines and remember whether an `id:` line occurred. -/
structure WfSt where
  inTerm : Bool := false
  nsCount : Nat := 0
  idSeen : Bool := false
  deriving DecidableEq, Repr

/-- A finished stanza is acceptable when it carried exactly one `namespace:`
line and an `id:` line. -/
def stanzaOk (w : WfSt) : Bool :=
  !w.inTerm || (w.nsCount == 1 && w.idSeen)

/-- One line of the well-formedness check. -/
def wfStep (w : WfSt) (line : String) : Option WfSt :=
  match classify line with
  | .termHeader =>
    if stanzaOk w then some { inTerm := true, nsCount := 0, idSeen := false } else none
  | .otherHeader =>
    if stanzaOk w then some { inTerm := false, nsCount := 0, idSeen := false } else none
  | .kv k _ =>
    if w.inTerm then
      some { w with
        nsCount := if k == "namespace" then w.nsCount + 1 else w.nsCount
        idSeen := w.idSeen || k == "id" }
    else some w
  | .blank => some w

/-- A stream is well formed when every stanza (including the final one) has
exactly one `namespace:` line and an `id:` line. -/
def wfStream (lines : List String) : Bool :=
  match lines.foldlM wfStep ({} : WfSt) with
  | some w => stanzaOk w
  | none => false

/-- Decidable equality of `Except` results, needed to evaluate parser runs
inside proofs. -/
instance instDecEqExcept {ε α : Type} [DecidableEq ε] [DecidableEq α] :
    DecidableEq (Except ε α) := fun a b =>
  match a, b with
  | .ok x, .ok y =>
    if h : x = y then .isTrue (congrArg Except.ok h)
    else .isFalse fun hh => h (Except.ok.inj hh)
  | .error x, .error y =>
    if h : x = y then .isTrue (congrArg Except.error h)
    else .isFalse fun hh => h (Except.error.inj hh)
  | .ok _, .error _ => .isFalse fun hh => Except.noConfusion hh
  | .error _, .ok _ => .isFalse fun hh => Except.noConfusion hh

/-- Counterexample stream for claim C5: the first stanza has an `id:` line
but no `namespace:` line. -/
def c5CounterLines : List String :=
  ["[Term]", "id: GO:0000001", "[Term]", "id: GO:0000002",
   "namespace: biological_process"]

/-- Well-formed stream for claim C5's witness: two stanzas in the target
partition and one in another partition. -/
def c5WitnessLines : List String :=
  ["[Term]", "id: GO:0000001", "name: mitotic cell cycle",
   "namespace: biological_process",
   "[Term]", "id: GO:0000002", "name: mitochondrion", "namespace: cellular_component",
   "[Term]", "id: GO:0000003", "name: reproduction", "namespace: biological_process"]

/-- Simulation invariant tying a skip-parser state, a reference-parser state
and a well-formedness tracker state together: emissions agree up to the
namespace filter, and the in-progress records agree as far as the stanza seen
so far is well formed. -/
def ParserInv (target : String) (s : SkipSt) (f : FullSt) (w : WfSt) : Prop :=
  s.emitted = filterTarget target f.emitted ∧
  ((s.cur = none ∧ f.cur = none ∧ w.inTerm = false ∧ s.skip = false) ∨
   (∃ t t', s.cur = some t ∧ f.cur = some t' ∧ w.inTerm = true ∧
     (w.idSeen = true → t'.id.isSome = true) ∧
     (w.nsCount = 0 → t = t' ∧ s.skip = false ∧ t'.namespace' = none) ∧
     (w.nsCount = 1 → ∃ v, t'.namespace' = some v ∧ t.namespace' = some v ∧
       ((v = target ∧ s.skip = false ∧ t = t') ∨ (¬ v = target ∧ s.skip = true)))))

/-! ## Reference Validator (`_create_reference_dataframes`, lines 237-304)

The three authoritative tables are loaded into in-memory maps, modelled as
functions `String → Option String` (Python dict semantics: assignment
overwrites, `del` removes).  `next(f)` skips the header row, modelled by
`List.drop 1`. -/

/-- Parse one line of the id→name table: `line.strip().split('\t', 1)` with
the `len(parts) == 2` guard (two pieces exactly when a tab occurs; the name
may itself contain tabs). -/
def parseNameRow (line : String) : Option (String × String) :=
  splitFirst (pyTrim line) '\t'

/-- Parse one line of a two-column table: `line.strip().split('\t')` with the
`len(parts) == 2` guard. -/
def parseTwoColRow (line : String) : Option (String × String) :=
  match pySplitChar (pyTrim line) '\t' with
  | [a, b] => some (a, b)
  | _ => none

/-- The four lookup maps built by `_create_reference_dataframes`. -/
structure RefLookups where
  go_name_lookup : String → Option String
  go_namespace_lookup : String → Option String
  alt_id_lookup : String → Option String
  current_to_alt_lookup : String → List String

/-- Load the id→name table (all rows, no filtering yet). -/
def loadNameLookup (nameLines : List String) : String → Option String :=
  (nameLines.drop 1).foldl
    (fun m line =>
      match parseNameRow line with
      | some (go_id, nm) => fun x => if x = go_id then some nm else m x
      | none => m)
    (fun _ => none)

/-- One row of the id→namespace load over the state (name map, namespace
map): a row in the target namespace is recorded; a row outside it
retroactively deletes its id from the name map when present. -/
def nsLoadStep (nsFull : String)
    (st : (String → Option String) × (String → Option String)) (line : String) :
    (String → Option String) × (String → Option String) :=
  match parseTwoColRow line with
  | some (go_id, ns) =>
    if ns = nsFull then
      (st.1, fun x => if x = go_id then some ns else st.2 x)
    else if (st.1 go_id).isSome then
      (fun x => if x = go_id then none else st.1 x, st.2)
    else st
  | none => st

/-- Load names then namespaces, returning (name map, namespace map). -/
def loadNamespaceLookups (nsFull : String) (nameLines nsLines : List String) :
    (String → Option String) × (String → Option String) :=
  (nsLines.drop 1).foldl (nsLoadStep nsFull) (loadNameLookup nameLines, fun _ => none)

/-- One row of the obsolete-id table: only rows whose current id sits in the
(namespace-filtered) namespace map are recorded. -/
def altLoadStep (nsLookup : String → Option String)
    (st : (String → Option String) × (String → List String)) (line : String) :
    (String → Option String) × (String → List String) :=
  match parseTwoColRow line with
  | some (current_id, obsolete_id) =>
    if (nsLookup current_id).isSome then
      (fun x => if x = obsolete_id then some current_id else st.1 x,
       fun x => if x = current_id then st.2 x ++ [obsolete_id] else st.2 x)
    else st
  | none => st

/-- The full `_create_reference_dataframes` load. -/
def create_reference_dataframes (nsFull : String)
    (nameLines nsLines altLines : List String) : RefLookups :=
  let nl := loadNamespaceLookups nsFull nameLines nsLines
  let al := (altLines.drop 1).foldl (altLoadStep nl.2) (fun _ => none, fun _ => [])
  { go_name_lookup := nl.1
    go_namespace_lookup := nl.2
    alt_id_lookup := al.1
    current_to_alt_lookup := al.2 }

/-- Counterexample tables for claim C6: the name table has one row, the
namespace table has no data rows at all. -/
def c6NameLines : List String :=
  ["go_id\tname", "GO:0000001\tapoptotic process"]

/-- Header-only namespace table for the C6 counterexample. -/
def c6NsLines : List String :=
  ["go_id\tnamespace"]

/-- Header-only alternative-id table. -/
def c6AltLines : List String :=
  ["go_id\talt_id"]

/-- Namespace table used by the C6 witness: the single id is assigned the
target namespace. -/
def c6WitnessNsLines : List String :=
  ["go_id\tnamespace", "GO:0000001\tbiological_process"]

/-! ## Gene-annotation scan (`_import_gene_annotations`, lines 1128-1219)

The GAF file scan: comment lines are skipped, a data row needs at least 15
tab-separated columns, and a row is collected for the target partition when
its aspect column matches the partition's one-letter code **or** its
qualifier column matches the partition's qualifier (`go_kg_builder.py` line
1159). -/

/-- The builder's namespace parameter (`bp`, `cc` or `mf`). -/
inductive GoNamespace where
  | bp
  | cc
  | mf
  deriving DecidableEq, Repr

/-- The `namespace_full` mapping from `__init__`. -/
def namespaceFull : GoNamespace → String
  | .bp => "biological_process"
  | .cc => "cellular_component"
  | .mf => "molecular_function"

/-- The `qualifier` mapping from `__init__` (also re-created as
`namespace_qualifiers` inside the scan). -/
def namespaceQualifier : GoNamespace → String
  | .bp => "involved_in"
  | .cc => "located_in"
  | .mf => "enables"

/-- The `namespace_aspects` mapping from the scan. -/
def namespaceAspect : GoNamespace → String
  | .bp => "P"
  | .cc => "C"
  | .mf => "F"

/-- One collected GAF 2.2 annotation record (columns per the
`gaf_columns` mapping; the two optional trailing columns default to ""). -/
structure GafRow where
  db : String
  db_object_id : String
  db_object_symbol : String
  qualifier : String
  go_id : String
  db_reference : String
  evidence_code : String
  with_from : String
  aspect : String
  db_object_name : String
  db_object_synonym : String
  db_object_type : String
  taxon : String
  date : String
  assigned_by : String
  annotation_extension : String
  gene_product_form_id : String
  deriving DecidableEq, Repr

/-- Build the collected record from the split columns
(`parts[15] if len(parts) > 15 else ''` is `getD`). -/
def mkGafRow (parts : List String) : GafRow :=
  { db := parts.getD 0 ""
    db_object_id := parts.getD 1 ""
    db_object_symbol := parts.getD 2 ""
    qualifier := parts.getD 3 ""
    go_id := parts.getD 4 ""
    db_reference := parts.getD 5 ""
    evidence_code := parts.getD 6 ""
    with_from := parts.getD 7 ""
    aspect := parts.getD 8 ""
    db_object_name := parts.getD 9 ""
    db_object_synonym := parts.getD 10 ""
    db_object_type := parts.getD 11 ""
    taxon := parts.getD 12 ""
    date := parts.getD 13 ""
    assigned_by := parts.getD 14 ""
    annotation_extension := parts.getD 15 ""
    gene_product_form_id := parts.getD 16 "" }

/-- The scan loop of `_import_gene_annotations` (counters are logging only
and omitted): collect the rows ingested under the target partition. -/
def import_gene_annotations_scan (ns : GoNamespace) : List String → List GafRow
  | [] => []
  | line :: rest =>
    if pyStartsWith line "!" then import_gene_annotations_scan ns rest
    else
      let parts := pySplitChar (pyTrim line) '\t'
      if parts.length ≥ 15 then
        if parts.getD 8 "" == namespaceAspect ns ||
            parts.getD 3 "" == namespaceQualifier ns then
          mkGafRow parts :: import_gene_annotations_scan ns rest
        else import_gene_annotations_scan ns rest
      else import_gene_annotations_scan ns rest

/-- Per-line selection predicate: a data row is selected iff it has ≥ 15
columns and its aspect equals the partition's aspect code or its qualifier
equals the partition's qualifier. -/
def gafRowSelected (ns : GoNamespace) (line : String) : Option GafRow :=
  if pyStartsWith line "!" then none
  else
    let parts := pySplitChar (pyTrim line) '\t'
    if parts.length ≥ 15 then
      if parts.getD 8 "" == namespaceAspect ns ||
          parts.getD 3 "" == namespaceQualifier ns then
        some (mkGafRow parts)
      else none
    else none

/-- A GAF row whose aspect column (`C`) denotes the cellular-component
partition but whose qualifier (`involved_in`) is the biological-process
qualifier. -/
def c10DemoLine : String :=
  "UniProtKB\tP04637\tTP53\tinvolved_in\tGO:0006915\tPMID:1\tIDA\t\tC\tCellular tumor antigen p53\t\tprotein\ttaxon:9606\t20200101\tUniProt"

/-! ## Cross-Namespace Interconnector (`go_terms_interconnector.py`)

The store fragment the interconnector reads: `GOTerm` nodes with their
namespace, `Gene` nodes, undirected `ANNOTATED_WITH` incidences and the
derived cross-namespace edges. -/

/-- A `GOTerm` node as seen by the interconnector. -/
structure ITerm where
  go_id : String
  ns : String
  deriving DecidableEq, Repr

/-- A `Gene` node (only its identity matters here). -/
structure IGene where
  nodeId : Nat
  deriving DecidableEq, Repr

/-- An `ANNOTATED_WITH` incidence between a gene and a term (the Cypher
patterns here are undirected). -/
structure IAnn where
  geneId : Nat
  goId : String
  deriving DecidableEq, Repr

/-- A derived cross-namespace edge (`OCCURS_IN`, `ENABLED_BY` or
`HOSTS_FUNCTION`; `created_date` is omitted as an opaque timestamp). -/
structure DerivedEdge where
  relType : String
  source : String
  target : String
  shared_gene_count : Nat
  confidence : String
  created_by : String
  deriving DecidableEq, Repr

/-- The interconnector's view of the store. -/
structure IStore where
  terms : List ITerm
  genes : List IGene
  anns : List IAnn
  derived : List DerivedEdge
  deriving DecidableEq, Repr

/-- `self.min_shared_genes` from `GOInterconnector.__init__`. -/
def min_shared_genes : Nat := 3

/-- `self.high_confidence`. -/
def high_confidence : Nat := 50

/-- `self.medium_confidence`. -/
def medium_confidence : Nat := 10

/-- `count(DISTINCT g)` over the path pattern
`(a)-[:ANNOTATED_WITH]-(g:Gene)-[:ANNOTATED_WITH]-(b)`: the number of genes
annotated to both terms. -/
def sharedGenes (s : IStore) (a b : String) : Nat :=
  (s.genes.filter fun g =>
    (s.anns.any fun e => e.geneId == g.nodeId && e.goId == a) &&
    (s.anns.any fun e => e.geneId == g.nodeId && e.goId == b)).length

/-- `EXISTS((a)-[:REL]->(b))` over the derived edges. -/
def derivedExists (s : IStore) (rt a b : String) : Bool :=
  s.derived.any fun e => e.relType == rt && e.source == a && e.target == b

/-- The aggregated rows of one `create_*_connections` query: every
`(a, b)` pair with `a` in the first partition, `b` in the second, distinct
nodes, no existing derived edge of this type, and at least `minG` distinct
shared genes (the `NOT EXISTS` reads run before any `CREATE`). -/
def connectionPairs (s : IStore) (ns1 ns2 rt : String) (minG : Nat) :
    List (ITerm × ITerm) :=
  (s.terms.filter fun p => p.ns == ns1).flatMap fun p =>
    (s.terms.filter fun q =>
      q.ns == ns2 && p.go_id != q.go_id &&
      !(derivedExists s rt p.go_id q.go_id) &&
      decide (minG ≤ sharedGenes s p.go_id q.go_id)).map fun q => (p, q)

/-- The derived edge created for one qualifying pair, with the
`CASE`-expression confidence tier. -/
def mkDerivedEdge (s : IStore) (rt : String) (highC medC : Nat)
    (pq : ITerm × ITerm) : DerivedEdge :=
  let n := sharedGenes s pq.1.go_id pq.2.go_id
  { relType := rt
    source := pq.1.go_id
    target := pq.2.go_id
    shared_gene_count := n
    confidence := if n ≥ highC then "high" else if n ≥ medC then "medium" else "low"
    created_by := "go_interconnector" }

/-- Shared body of `create_bp_cc_connections`, `create_bp_mf_connections`
and `create_cc_mf_connections` (the three queries are identical up to the
namespace pair and relationship type); returns the updated store and the
`count(r)` result. -/
def create_connections (ns1 ns2 rt : String) (minG highC medC : Nat)
    (s : IStore) : IStore × Nat :=
  let newEdges := (connectionPairs s ns1 ns2 rt minG).map (mkDerivedEdge s rt highC medC)
  ({ s with derived := s.derived ++ newEdges }, newEdges.length)

/-- `create_bp_cc_connections` (lines 103-135). -/
def create_bp_cc_connections (s : IStore) : IStore × Nat :=
  create_connections "biological_process" "cellular_component" "OCCURS_IN"
    min_shared_genes high_confidence medium_confidence s

/-- `create_bp_mf_connections` (lines 137-169). -/
def create_bp_mf_connections (s : IStore) : IStore × Nat :=
  create_connections "biological_process" "molecular_function" "ENABLED_BY"
    min_shared_genes high_confidence medium_confidence s

/-- `create_cc_mf_connections` (lines 171-203). -/
def create_cc_mf_connections (s : IStore) : IStore × Nat :=
  create_connections "cellular_component" "molecular_function" "HOSTS_FUNCTION"
    min_shared_genes high_confidence medium_confidence s

/-- Term count of one namespace (`validate_prerequisites` groups by
namespace; a namespace with no terms is reported "missing", which the
minimum check below subsumes since the minima are positive). -/
def namespaceTermCount (s : IStore) (ns : String) : Nat :=
  (s.terms.filter fun t => t.ns == ns).length

/-- The count of genes annotated (to existing terms) in more than one
namespace: `collect(DISTINCT go.namespace)` with `size(namespaces) > 1`. -/
def multiNamespaceGenes (s : IStore) : Nat :=
  (s.genes.filter fun g =>
    (((s.anns.filter fun e => e.geneId == g.nodeId).filterMap fun e =>
        (s.terms.find? fun t => t.go_id == e.goId).map fun t => t.ns).dedup).length > 1).length

/-- `validate_prerequisites` (lines 55-101): per-namespace minimum term
counts (25000 / 3000 / 10000) and at least 10000 multi-namespace genes
(`if multi_genes < 10000: return False`). -/
def validate_prerequisites (s : IStore) : Bool :=
  decide (25000 ≤ namespaceTermCount s "biological_process") &&
  decide (3000 ≤ namespaceTermCount s "cellular_component") &&
  decide (10000 ≤ namespaceTermCount s "molecular_function") &&
  decide (10000 ≤ multiNamespaceGenes s)

/-- `create_interconnections` (lines 205-241): fail fast on the
prerequisite check, otherwise run the three connection queries in order. -/
def create_interconnections (s : IStore) : Bool × IStore :=
  if validate_prerequisites s then
    let s1 := (create_bp_cc_connections s).1
    let s2 := (create_bp_mf_connections s1).1
    let s3 := (create_cc_mf_connections s2).1
    (true, s3)
  else (false, s)

/-- Witness store for C8: one bp term, one cc term, three genes annotated to
both. -/
def c8WitnessStore : IStore :=
  { terms := [{ go_id := "GO:0006915", ns := "biological_process" },
              { go_id := "GO:0005739", ns := "cellular_component" }]
    genes := [{ nodeId := 0 }, { nodeId := 1 }, { nodeId := 2 }]
    anns := [{ geneId := 0, goId := "GO:0006915" }, { geneId := 0, goId := "GO:0005739" },
             { geneId := 1, goId := "GO:0006915" }, { geneId := 1, goId := "GO:0005739" },
             { geneId := 2, goId := "GO:0006915" }, { geneId := 2, goId := "GO:0005739" }]
    derived := [] }

/-- Witness store for C9: an empty store trivially fails the bp minimum. -/
def c9EmptyStore : IStore :=
  { terms := [], genes := [], anns := [], derived := [] }

/-! ## Batching

`for i in range(0, len(records), batch_size): batch = records[i:i+batch_size]`
modelled with the list length as structural fuel. -/

/-- Helper for `chunks` (one batch comes off the front each step). -/
def chunksGo {α : Type} (bs : Nat) : Nat → List α → List (List α)
  | _, [] => []
  | 0, l => [l]
  | fuel + 1, l => l.take bs :: chunksGo bs fuel (l.drop bs)

/-- Sequential batching of a record list. -/
def chunks {α : Type} (bs : Nat) (l : List α) : List (List α) :=
  chunksGo bs l.length l

/-! ## Collapsed cross-reference ingestion (phases 6-8,
`go_kg_builder.py` lines 1446-2153)

The store fragment these phases touch: `GOTerm` ids, term-to-term edges
(the five primary relation types plus `COLLAPSED_HIERARCHY`), `Gene` nodes
and `ANNOTATED_WITH` gene-to-term edges with the properties the Cypher
queries read or merge on. -/

/-- A term-to-term edge with the properties used by phases 6-8. -/
structure TermEdge where
  child : String
  parent : String
  label : String
  source_file : String
  hierarchy_type : Option String := none
  child_id : Option String := none
  parent_id : Option String := none
  cross_validated_entrez : Option Bool := none
  cross_validated_symbol : Option Bool := none
  cross_validated_uniprot : Option Bool := none
  cross_validated_with_existing : Option Bool := none
  import_timestamp : Option String := none
  deriving DecidableEq, Repr

/-- A `Gene` node with the properties phases 6-8 read or write. -/
structure XGene where
  nodeId : Nat
  entrez_id : Option String := none
  symbol : Option String := none
  uniprot_id : Option String := none
  source_files : Option (List String) := none
  id_type : Option String := none
  import_timestamp : Option String := none
  last_updated : Option String := none
  symbol_cross_validated : Option Bool := none
  uniprot_cross_validated : Option Bool := none
  uniprot_validated : Option Bool := none
  deriving DecidableEq, Repr

/-- An `ANNOTATED_WITH` edge with the per-phase merge-key properties. -/
structure AnnAssoc where
  geneId : Nat
  goId : String
  source_file : String
  go_id_prop : Option String := none
  entrez_id_prop : Option String := none
  gene_symbol_prop : Option String := none
  uniprot_id_prop : Option String := none
  association_type : Option String := none
  evidence_code : Option String := none
  qualifier : Option String := none
  id_type : Option String := none
  import_timestamp : Option String := none
  deriving DecidableEq, Repr

/-- The store fragment for phases 6-8. -/
structure XrefStore where
  terms : List String
  termEdges : List TermEdge
  genes : List XGene
  assocs : List AnnAssoc
  nextGeneId : Nat
  deriving DecidableEq, Repr

/-- Ingestion counters surfaced by phases 6 and 7. -/
structure XrefStats where
  hierarchy_processed : Nat
  gene_processed : Nat
  skipped_existing : Nat
  deriving DecidableEq, Repr

/-- The first-pass scan shared by `_import_collapsed_entrez` and
`_import_collapsed_symbol`: rows of at least three tab fields separated
into hierarchy entries (`default`) and gene entries (`gene`). -/
def separateCollapsed (lines : List String) :
    List (String × String) × List (String × String) :=
  lines.foldl
    (fun acc line =>
      let parts := pySplitChar (pyTrim line) '\t'
      if parts.length ≥ 3 then
        if parts.getD 2 "" == "default" then
          (acc.1 ++ [(parts.getD 0 "", parts.getD 1 "")], acc.2)
        else if parts.getD 2 "" == "gene" then
          (acc.1, acc.2 ++ [(parts.getD 0 "", parts.getD 1 "")])
        else acc
      else acc)
    ([], [])

/-- `_parse_uniprot_file` (lines 1950-1996): empty lines skipped, rows with
exactly three fields kept. -/
def parse_uniprot_file (lines : List String) :
    List (String × String) × List (String × String) :=
  lines.foldl
    (fun acc line =>
      let l := pyTrim line
      if l == "" then acc
      else
        let parts := pySplitChar l '\t'
        if parts.length == 3 then
          if parts.getD 2 "" == "default" then
            (acc.1 ++ [(parts.getD 0 "", parts.getD 1 "")], acc.2)
          else if parts.getD 2 "" == "gene" then
            (acc.1, acc.2 ++ [(parts.getD 0 "", parts.getD 1 "")])
          else acc
        else acc)
    ([], [])

/-- `MATCH ()-[r:COLLAPSED_HIERARCHY]->() WHERE r.source_file = file
RETURN count(r)` (phase 7's variant restricts the target to `GOTerm`, which
every edge target in this store is). -/
def countCollapsedHierarchy (s : XrefStore) (file : String) : Nat :=
  (s.termEdges.filter fun e =>
    e.label == "COLLAPSED_HIERARCHY" && e.source_file == file).length

/-- `MATCH (g:Gene)-[r:ANNOTATED_WITH]->() WHERE r.source_file = file
RETURN count(r)`. -/
def countAnnotBySource (s : XrefStore) (file : String) : Nat :=
  (s.assocs.filter fun a => a.source_file == file).length

/-- The six relation types checked by the phase-6 duplicate guard. -/
def primaryLabels : List String :=
  ["IS_A", "PART_OF", "REGULATES", "NEGATIVELY_REGULATES",
   "POSITIVELY_REGULATES", "COLLAPSED_HIERARCHY"]

/-- `_process_hierarchy_batch_entrez` (lines 1574-1605): a row with both
terms present creates a `COLLAPSED_HIERARCHY` edge unless *any* edge of the
six types already links the pair (the expansion is computed against the
batch-start store; the writes follow). -/
def process_hierarchy_batch_entrez (ts : String) (s : XrefStore)
    (batch : List (String × String)) : XrefStore :=
  let newEdges := (batch.filter fun e =>
      s.terms.contains e.1 && s.terms.contains e.2 &&
      !(s.termEdges.any fun te => te.child == e.1 && te.parent == e.2 &&
          primaryLabels.contains te.label)).map fun e =>
    ({ child := e.1, parent := e.2, label := "COLLAPSED_HIERARCHY"
       source_file := "collapsed_go.entrez", hierarchy_type := some "default"
       import_timestamp := some ts, cross_validated_entrez := some true } : TermEdge)
  { s with termEdges := s.termEdges ++ newEdges }

/-- One row of the phase-6 gene `MERGE (g:Gene {entrez_id: ...})`. -/
def mergeGeneEntrez (ts : String) (s : XrefStore) (entry : String × String) : XrefStore :=
  if (s.genes.filter fun g => g.entrez_id == some entry.2).isEmpty then
    { s with
      genes := s.genes ++
        [{ nodeId := s.nextGeneId
           entrez_id := some entry.2
           source_files := some ["collapsed_go.entrez"]
           import_timestamp := some ts
           id_type := some "entrez" }]
      nextGeneId := s.nextGeneId + 1 }
  else
    { s with genes := s.genes.map fun g =>
        if g.entrez_id == some entry.2 then
          { g with
            source_files := some ((g.source_files.getD []) ++
              (if (g.source_files.getD []).contains "collapsed_go.entrez" then []
               else ["collapsed_go.entrez"]))
            last_updated := some ts }
        else g }

/-- One row of the phase-6 association
`MERGE (g)-[r:ANNOTATED_WITH {source_file, go_id, entrez_id}]->(go)`. -/
def mergeAssocEntrez (ts : String) (s : XrefStore) (entry : String × String) : XrefStore :=
  if s.terms.contains entry.1 then
    ((s.genes.filter fun g => g.entrez_id == some entry.2).map (fun g => g.nodeId)).foldl
      (fun st gid =>
        if st.assocs.any fun a => a.geneId == gid && a.goId == entry.1 &&
            a.source_file == "collapsed_go.entrez" && a.go_id_prop == some entry.1 &&
            a.entrez_id_prop == some entry.2 then st
        else { st with assocs := st.assocs ++
            [{ geneId := gid
               goId := entry.1
               source_file := "collapsed_go.entrez"
               go_id_prop := some entry.1
               entrez_id_prop := some entry.2
               association_type := some "gene"
               import_timestamp := some ts
               evidence_code := some "COLLAPSED"
               qualifier := some "involved_in" }] }) s
  else s

/-- `_process_gene_batch_entrez` (lines 1607-1656): bulk gene merge, then
bulk association merge. -/
def process_gene_batch_entrez (ts : String) (s : XrefStore)
    (batch : List (String × String)) : XrefStore :=
  batch.foldl (mergeAssocEntrez ts) (batch.foldl (mergeGeneEntrez ts) s)

/-- `_import_collapsed_entrez` (lines 1478-1549): scan, query existing
progress per category, drop that many leading records
(`entries[existing:] if existing > 0 else entries`), process the rest in
batches of `min(hierarchy*3, 3000)` and `min(entrez_genes*2, 10000)`;
`*_processed` accumulates `len(batch)` per batch and `skipped_existing` the
skip counts (each added only when its category is non-empty). -/
def import_collapsed_entrez (ts : String) (s : XrefStore) (lines : List String) :
    XrefStore × XrefStats :=
  let sep := separateCollapsed lines
  let existing_hierarchy := countCollapsedHierarchy s "collapsed_go.entrez"
  let existing_associations := countAnnotBySource s "collapsed_go.entrez"
  let hToProcess := if 0 < existing_hierarchy then sep.1.drop existing_hierarchy else sep.1
  let gToProcess := if 0 < existing_associations then sep.2.drop existing_associations
    else sep.2
  let s1 := if sep.1.isEmpty then s
    else (chunks 3000 hToProcess).foldl (process_hierarchy_batch_entrez ts) s
  let s2 := if sep.2.isEmpty then s1
    else (chunks 10000 gToProcess).foldl (process_gene_batch_entrez ts) s1
  (s2,
   { hierarchy_processed := if sep.1.isEmpty then 0
       else ((chunks 3000 hToProcess).map List.length).sum
     gene_processed := if sep.2.isEmpty then 0
       else ((chunks 10000 gToProcess).map List.length).sum
     skipped_existing := (if sep.1.isEmpty then 0 else existing_hierarchy) +
       (if sep.2.isEmpty then 0 else existing_associations) })

/-- `_process_hierarchy_batch_symbol` (lines 1794-1829): per row, a
`MERGE` keyed on `{source_file, child_id, parent_id}` creates the edge when
absent, recording whether any primary-type edge already linked the pair. -/
def process_hierarchy_batch_symbol (ts : String) (s : XrefStore)
    (batch : List (String × String)) : XrefStore :=
  batch.foldl
    (fun st e =>
      if st.terms.contains e.1 && st.terms.contains e.2 then
        if st.termEdges.any fun te => te.child == e.1 && te.parent == e.2 &&
            te.label == "COLLAPSED_HIERARCHY" &&
            te.source_file == "collapsed_go.symbol" &&
            te.child_id == some e.1 && te.parent_id == some e.2 then st
        else
          { st with termEdges := st.termEdges ++
              [{ child := e.1
                 parent := e.2
                 label := "COLLAPSED_HIERARCHY"
                 source_file := "collapsed_go.symbol"
                 child_id := some e.1
                 parent_id := some e.2
                 hierarchy_type := some "default"
                 import_timestamp := some ts
                 cross_validated_symbol := some true
                 cross_validated_with_existing := some (st.termEdges.any fun te =>
                   te.child == e.1 && te.parent == e.2 &&
                   primaryLabels.contains te.label) }] }
      else st)
    s

/-- One row of the phase-7 gene `MERGE (g:Gene {symbol: ...})`. -/
def mergeGeneSymbol (ts : String) (s : XrefStore) (entry : String × String) : XrefStore :=
  if (s.genes.filter fun g => g.symbol == some entry.2).isEmpty then
    { s with
      genes := s.genes ++
        [{ nodeId := s.nextGeneId
           symbol := some entry.2
           source_files := some ["collapsed_go.symbol"]
           import_timestamp := some ts
           id_type := some "symbol"
           symbol_cross_validated := some false }]
      nextGeneId := s.nextGeneId + 1 }
  else
    { s with genes := s.genes.map fun g =>
        if g.symbol == some entry.2 then
          { g with
            source_files := some ((g.source_files.getD []) ++
              (if (g.source_files.getD []).contains "collapsed_go.symbol" then []
               else ["collapsed_go.symbol"]))
            last_updated := some ts
            symbol_cross_validated := some true }
        else g }

/-- One row of the phase-7 association
`MERGE (g)-[r:ANNOTATED_WITH {source_file, go_id, gene_symbol}]->(go)`;
`qualifier` is the builder's namespace qualifier. -/
def mergeAssocSymbol (q : String) (ts : String) (s : XrefStore)
    (entry : String × String) : XrefStore :=
  if s.terms.contains entry.1 then
    ((s.genes.filter fun g => g.symbol == some entry.2).map (fun g => g.nodeId)).foldl
      (fun st gid =>
        if st.assocs.any fun a => a.geneId == gid && a.goId == entry.1 &&
            a.source_file == "collapsed_go.symbol" && a.go_id_prop == some entry.1 &&
            a.gene_symbol_prop == some entry.2 then st
        else { st with assocs := st.assocs ++
            [{ geneId := gid
               goId := entry.1
               source_file := "collapsed_go.symbol"
               go_id_prop := some entry.1
               gene_symbol_prop := some entry.2
               association_type := some "gene"
               import_timestamp := some ts
               evidence_code := some "COLLAPSED"
               qualifier := some q
               id_type := some "symbol" }] }) s
  else s

/-- `_process_gene_batch_symbol` (lines 1831-1894). -/
def process_gene_batch_symbol (q ts : String) (s : XrefStore)
    (batch : List (String × String)) : XrefStore :=
  batch.foldl (mergeAssocSymbol q ts) (batch.foldl (mergeGeneSymbol ts) s)

/-- `_import_collapsed_symbol` (lines 1696-1769): same skip-by-count resume
pattern as phase 6, batch sizes `min(hierarchy*3, 3000)` and
`min(symbol_genes*2, 8000) = 2000`. -/
def import_collapsed_symbol (q ts : String) (s : XrefStore) (lines : List String) :
    XrefStore × XrefStats :=
  let sep := separateCollapsed lines
  let existing_hierarchy := countCollapsedHierarchy s "collapsed_go.symbol"
  let existing_associations := countAnnotBySource s "collapsed_go.symbol"
  let hToProcess := if 0 < existing_hierarchy then sep.1.drop existing_hierarchy else sep.1
  let gToProcess := if 0 < existing_associations then sep.2.drop existing_associations
    else sep.2
  let s1 := if sep.1.isEmpty then s
    else (chunks 3000 hToProcess).foldl (process_hierarchy_batch_symbol ts) s
  let s2 := if sep.2.isEmpty then s1
    else (chunks 2000 gToProcess).foldl (process_gene_batch_symbol q ts) s1
  (s2,
   { hierarchy_processed := if sep.1.isEmpty then 0
       else ((chunks 3000 hToProcess).map List.length).sum
     gene_processed := if sep.2.isEmpty then 0
       else ((chunks 2000 gToProcess).map List.length).sum
     skipped_existing := (if sep.1.isEmpty then 0 else existing_hierarchy) +
       (if sep.2.isEmpty then 0 else existing_associations) })

/-- `_process_uniprot_hierarchy_batch` (lines 2028-2056): rows whose pair
has no uniprot-sourced `COLLAPSED_HIERARCHY` edge yet create one (the
`MERGE` key is subsumed by the `NOT EXISTS` guard). -/
def process_uniprot_hierarchy_batch (ts : String) (s : XrefStore)
    (batch : List (String × String)) : XrefStore :=
  batch.foldl
    (fun st e =>
      if st.terms.contains e.1 && st.terms.contains e.2 &&
          !(st.termEdges.any fun te => te.child == e.1 && te.parent == e.2 &&
              te.label == "COLLAPSED_HIERARCHY" &&
              te.source_file == "collapsed_go.uniprot") then
        { st with termEdges := st.termEdges ++
            [{ child := e.1
               parent := e.2
               label := "COLLAPSED_HIERARCHY"
               source_file := "collapsed_go.uniprot"
               child_id := some e.1
               parent_id := some e.2
               import_timestamp := some ts
               cross_validated_uniprot := some true }] }
      else st)
    s

/-- One row of the phase-8 gene `MERGE (g:Gene {uniprot_id: ...})`. -/
def mergeGeneUniprot (ts : String) (s : XrefStore) (entry : String × String) : XrefStore :=
  if (s.genes.filter fun g => g.uniprot_id == some entry.2).isEmpty then
    { s with
      genes := s.genes ++
        [{ nodeId := s.nextGeneId
           uniprot_id := some entry.2
           source_files := some ["collapsed_go.uniprot"]
           import_timestamp := some ts
           id_type := some "uniprot"
           uniprot_cross_validated := some false }]
      nextGeneId := s.nextGeneId + 1 }
  else
    { s with genes := s.genes.map fun g =>
        if g.uniprot_id == some entry.2 then
          { g with
            source_files := some ((g.source_files.getD []) ++
              (if (g.source_files.getD []).contains "collapsed_go.uniprot" then []
               else ["collapsed_go.uniprot"]))
            last_updated := some ts
            uniprot_validated := some true }
        else g }

/-- One row of the phase-8 association creation: `MATCH (go)` and `CREATE`
unless an uniprot-sourced `ANNOTATED_WITH` edge already links the pair. -/
def createAssocUniprot (ts : String) (s : XrefStore) (entry : String × String) : XrefStore :=
  if s.terms.contains entry.1 then
    ((s.genes.filter fun g => g.uniprot_id == some entry.2).map (fun g => g.nodeId)).foldl
      (fun st gid =>
        if st.assocs.any fun a => a.geneId == gid && a.goId == entry.1 &&
            a.source_file == "collapsed_go.uniprot" then st
        else { st with assocs := st.assocs ++
            [{ geneId := gid
               goId := entry.1
               source_file := "collapsed_go.uniprot"
               import_timestamp := some ts
               uniprot_id_prop := some entry.2 }] }) s
  else s

/-- `_process_uniprot_gene_batch` (lines 2102-2153). -/
def process_uniprot_gene_batch (ts : String) (s : XrefStore)
    (batch : List (String × String)) : XrefStore :=
  batch.foldl (createAssocUniprot ts) (batch.foldl (mergeGeneUniprot ts) s)

/-- `run_phase8_uniprot_cross_references` (lines 1900-1948): parse, then
process *all* hierarchy entries (batches of `hierarchy` = 1000) and *all*
gene entries (batches of `uniprot_genes` = 2000) — unlike phases 6 and 7
there is **no** existing-progress query and no record skipping; the stats
are `hierarchy_processed = len(hierarchy_entries)` and
`associations_created = len(gene_entries)`.  Returns the store with those
two counters. -/
def run_phase8_uniprot_cross_references (ts : String) (s : XrefStore)
    (lines : List String) : XrefStore × Nat × Nat :=
  let parsed := parse_uniprot_file lines
  let s1 := (chunks 1000 parsed.1).foldl (process_uniprot_hierarchy_batch ts) s
  let s2 := (chunks 2000 parsed.2).foldl (process_uniprot_gene_batch ts) s1
  (s2, ((chunks 1000 parsed.1).map List.length).sum,
    ((chunks 2000 parsed.2).map List.length).sum)

/-- Counterexample store for C7: one uniprot-sourced annotation edge is
already present, so a count-based resume would skip one gene record. -/
def c7Store : XrefStore :=
  { terms := ["GO:0000001"]
    termEdges := []
    genes := [{ nodeId := 0, uniprot_id := some "P04637" }]
    assocs := [{ geneId := 0
                 goId := "GO:0000001"
                 source_file := "collapsed_go.uniprot"
                 uniprot_id_prop := some "P04637" }]
    nextGeneId := 1 }

/-- Two uniprot gene rows for the C7 counterexample. -/
def c7Lines : List String :=
  ["GO:0000001\tP04637\tgene", "GO:0000001\tP38398\tgene"]

/-! ## Term and relationship import (phase 1,
`_import_go_terms` lines 513-678, `_import_go_relationships` lines 680-790,
`_process_hierarchical_batch` lines 951-1056)

`create_performance_indexes` (line 212) installs the uniqueness constraint
`GOTerm.go_id IS UNIQUE` before phase 1 runs; a batch `CREATE` violating it
fails as a whole (one auto-commit transaction per `session.run`), is caught,
logged and counted, and the loop moves to the next batch — so the alt-id
mapping query of a failed batch is skipped as well. -/

/-- A `GOTerm` node with the properties of the phase-1 `CREATE` (the
enriched `term_data`). -/
structure TermNode where
  go_id : String
  name : String
  namespace' : String
  definition : String
  comment : String
  is_obsolete : Bool
  created_by : String
  creation_date : String
  synonyms : List String
  synonym_scopes : List String
  alternative_ids : List String
  xrefs : List String
  subsets : List String
  consider : List String
  replaced_by : List String
  definition_references : List String
  source_file : String
  import_timestamp : String
  reference_validated : Bool
  name_corrected : Bool
  alt_id_validated : Bool
  alt_id_corrections : List String
  deriving DecidableEq, Repr

/-- An `AltGOMapping` node (its `MAPS_TO` edge is in 1-1 correspondence and
carried implicitly). -/
structure AltMapping where
  obsolete_id : String
  current_id : String
  source_file : String
  import_timestamp : String
  deriving DecidableEq, Repr

/-- Properties of a term-to-term relationship edge created by phase 1 or
phase 4. -/
structure RelProps where
  source_file : String
  relationship_type : Option String := none
  target_name : Option String := none
  namespace' : Option String := none
  validation_source : Option Bool := none
  import_timestamp : String
  cross_validated_go_tab : Bool := false
  cross_validation_timestamp : Option String := none
  deriving DecidableEq, Repr

/-- A term-to-term relationship edge: Neo4j type (`IS_A`, ...,
`GO_RELATIONSHIP`, `HIERARCHY_RELATION`), endpoints by `go_id`, and
properties. -/
structure RelEdge where
  label : String
  source : String
  target : String
  props : RelProps
  deriving DecidableEq, Repr

/-- The store fragment phase 1 and phase 4 touch. -/
structure TermStore where
  terms : List TermNode
  altMappings : List AltMapping
  rels : List RelEdge
  deriving DecidableEq, Repr

/-- The empty graph store. -/
def emptyTermStore : TermStore :=
  { terms := [], altMappings := [], rels := [] }

/-- `term['id']` (the parser guarantees the key for every emitted record). -/
def termId (t : OboTerm) : String :=
  t.id.getD ""

/-- The per-term enrichment of `_import_go_terms` (lines 529-613): the
reference name overrides the parsed name when present and non-empty (Python
truthiness), validation flags are recorded, and reference alternative ids
missing from the parsed ones are appended, each logged as a correction. -/
def enrichTerm (nameLookup : String → Option String)
    (currentToAlt : String → List String) (ts : String) (t : OboTerm) :
    TermNode × List AltMapping :=
  let go_id := termId t
  let obo_name := t.name.getD ""
  let obo_alt_ids := t.alt_ids
  let final_name :=
    match nameLookup go_id with
    | some ref_name => if ref_name = "" then obo_name else ref_name
    | none => obo_name
  let reference_validated := (nameLookup go_id).isSome
  let name_corrected :=
    match nameLookup go_id with
    | some ref_name => ref_name ≠ "" && obo_name ≠ "" && ref_name != obo_name
    | none => false
  let reference_alt_ids := currentToAlt go_id
  let alt_id_validated := !reference_alt_ids.isEmpty
  let missing_ref_ids := reference_alt_ids.filter fun r => !obo_alt_ids.contains r
  let final_alt_ids := obo_alt_ids ++ missing_ref_ids
  let alt_id_corrections := missing_ref_ids.map
    fun r => "Added missing ref alt_id: " ++ r
  let node : TermNode :=
    { go_id := go_id
      name := final_name
      namespace' := t.namespace'.getD ""
      definition := t.definition.getD ""
      comment := t.comment.getD ""
      is_obsolete := t.is_obsolete.getD false
      created_by := t.created_by.getD ""
      creation_date := t.creation_date.getD ""
      synonyms := t.synonyms.map fun syn => syn.text
      synonym_scopes := t.synonyms.map fun syn => syn.scope
      alternative_ids := final_alt_ids
      xrefs := t.xrefs
      subsets := t.subsets
      consider := t.consider
      replaced_by := t.replaced_by
      definition_references := t.def_refs.getD []
      source_file := "go-basic.obo"
      import_timestamp := ts
      reference_validated := reference_validated
      name_corrected := name_corrected
      alt_id_validated := alt_id_validated
      alt_id_corrections := alt_id_corrections }
  (node, final_alt_ids.map fun obsolete_id =>
    { obsolete_id := obsolete_id, current_id := go_id,
      source_file := "cross_validated_phase1", import_timestamp := ts })

/-- One phase-1 term batch: the batch `CREATE` succeeds as a unit iff no
created `go_id` collides with an existing node or another node of the same
batch (the uniqueness constraint rolls the whole query back otherwise); on
success the alt-mapping query then creates one `AltGOMapping` per collected
mapping (its `MATCH` on the just-created current node always finds it). -/
def importTermBatch (nameLookup : String → Option String)
    (currentToAlt : String → List String) (ts : String)
    (s : TermStore) (batch : List OboTerm) : TermStore :=
  let enriched := batch.map (enrichTerm nameLookup currentToAlt ts)
  let nodes := enriched.map fun p => p.1
  let maps := enriched.flatMap fun p => p.2
  if (nodes.any fun n => s.terms.any fun t0 => t0.go_id == n.go_id) ||
      !((nodes.map fun n => n.go_id).Nodup : Bool) then
    s
  else
    { s with
      terms := s.terms ++ nodes
      altMappings := s.altMappings ++
        maps.filter fun m => (s.terms ++ nodes).any fun t0 => t0.go_id == m.current_id }

/-- `_import_go_terms`: the term list is processed in batches of
`batch_sizes['go_terms']`. -/
def import_go_terms (nameLookup : String → Option String)
    (currentToAlt : String → List String) (ts : String) (bs : Nat)
    (termsList : List OboTerm) (s : TermStore) : TermStore :=
  (chunks bs termsList).foldl (importTermBatch nameLookup currentToAlt ts) s

/-- The `all_relationships` collection of `_import_go_relationships`
(lines 685-693): one entry per parsed relationship, in term order. -/
def collectRels (termsList : List OboTerm) : List (String × OboRel) :=
  termsList.flatMap fun t => t.relationships.map fun r => (termId t, r)

/-- The five relationship types with a dedicated `CREATE` query. -/
def knownRelLabels : List String :=
  ["IS_A", "PART_OF", "REGULATES", "NEGATIVELY_REGULATES", "POSITIVELY_REGULATES"]

/-- One relationship of `_import_go_relationships` (lines 703-781): the
type string is normalised (`' '`/`'-'` → `'_'`) to choose the edge label,
falling back to `GO_RELATIONSHIP`; the `CREATE` fires only when both
endpoint terms match (a silent no-op otherwise), and always with
`source_file = 'go-basic.obo'` — there is **no** existence check, a
re-run re-creates every edge. -/
def importOneRel (ts : String) (s : TermStore) (rel : String × OboRel) : TermStore :=
  let rel_type := pyReplaceChar (pyReplaceChar rel.2.type ' ' '_') '-' '_'
  let label := if knownRelLabels.contains rel_type then rel_type else "GO_RELATIONSHIP"
  if (s.terms.any fun t0 => t0.go_id == rel.1) &&
      (s.terms.any fun t0 => t0.go_id == rel.2.target) then
    { s with rels := s.rels ++
        [{ label := label
           source := rel.1
           target := rel.2.target
           props := { source_file := "go-basic.obo"
                      relationship_type := some rel.2.type
                      target_name := rel.2.target_name
                      import_timestamp := ts } }] }
  else s

/-- `_import_go_relationships`: every collected relationship is executed in
its own statement (batching only groups the loop; no statement can fail). -/
def import_go_relationships (ts : String) (termsList : List OboTerm)
    (s : TermStore) : TermStore :=
  (collectRels termsList).foldl (importOneRel ts) s

/-- A row of the phase-4 `go.tab` table. -/
structure HierRow where
  parent_id : String
  child_id : String
  relationship_type : String
  namespace' : String
  deriving DecidableEq, Repr

/-- `_process_hierarchical_batch` (lines 951-1056): validate endpoints,
mark a row a duplicate when an existing `child -> parent` edge's Neo4j type
equals the row's uppercased type, create `HIERARCHY_RELATION` edges for the
rest (against the batch-start store), then set the cross-validation flags on
every edge of each duplicate pair. -/
def process_hierarchical_batch (ts : String) (batch : List HierRow)
    (s : TermStore) : TermStore :=
  let valid := batch.filter fun row =>
    (s.terms.any fun t0 => t0.go_id == row.parent_id) &&
    (s.terms.any fun t0 => t0.go_id == row.child_id)
  let crossValidated := valid.filter fun row =>
    s.rels.any fun e => e.source == row.child_id && e.target == row.parent_id &&
      e.label == pyUpper row.relationship_type
  let dupPairs := crossValidated.map fun row => (row.parent_id, row.child_id)
  let newRels := valid.filter fun row =>
    !(dupPairs.contains (row.parent_id, row.child_id))
  let created := newRels.map fun row =>
    ({ label := "HIERARCHY_RELATION"
       source := row.child_id
       target := row.parent_id
       props := { source_file := "go.tab"
                  relationship_type := some row.relationship_type
                  namespace' := some row.namespace'
                  validation_source := some true
                  import_timestamp := ts } } : RelEdge)
  let s1 := { s with rels := s.rels ++ created }
  { s1 with rels := s1.rels.map fun e =>
      if dupPairs.contains (e.target, e.source) then
        { e with props := { e.props with
            cross_validated_go_tab := true
            cross_validation_timestamp := some ts } }
      else e }

/-- One full phase-1 import (terms then stanza relationships). -/
def runPhase1Import (nameLookup : String → Option String)
    (currentToAlt : String → List String) (ts : String) (bs : Nat)
    (termsList : List OboTerm) (s : TermStore) : TermStore :=
  import_go_relationships ts termsList
    (import_go_terms nameLookup currentToAlt ts bs termsList s)

/-- Input for the C2 counterexample: two terms, one `is_a` relationship. -/
def c2Terms : List OboTerm :=
  [{ id := some "GO:0000001"
     name := some "alpha"
     namespace' := some "biological_process"
     relationships := [{ type := "IS_A"
                         target := "GO:0000002"
                         target_name := some "beta" }] },
   { id := some "GO:0000002"
     name := some "beta"
     namespace' := some "biological_process" }]

/-- The number of collected relationships whose endpoints both exist in a
term list (exactly the relationships `_import_go_relationships` creates
edges for). -/
def validRelCount (termsList : List OboTerm) (terms : List TermNode) : Nat :=
  ((collectRels termsList).filter fun rel =>
    (terms.any fun t0 => t0.go_id == rel.1) &&
    (terms.any fun t0 => t0.go_id == rel.2.target)).length

end GoKG

/-! ## Theorems -/

namespace GoKG

/-- The `id` field can only be set, never cleared, by a key line. -/
theorem processKV_id_isSome (t : OboTerm) (k v : String) (h : t.id.isSome = true) :
    (processKV t k v).id.isSome = true := by
  simp only [processKV]
  (repeat' split) <;> simp_all

/-- Key lines other than `namespace:` leave the namespace field unchanged. -/
theorem processKV_ns_preserved (t : OboTerm) (k v : String) (h : ¬ k = "namespace") :
    (processKV t k v).namespace' = t.namespace' := by
  simp only [processKV]
  (repeat' split) <;> simp_all

/-- The namespace filter distributes over append. -/
theorem filterTarget_append (target : String) (l l' : List OboTerm) :
    filterTarget target (l ++ l') = filterTarget target l ++ filterTarget target l' := by
  simp [filterTarget, List.filter_append]

/-- One-line preservation of the parser simulation invariant. -/
theorem parserInv_step (target : String) (s : SkipSt) (f : FullSt) (w w' : WfSt)
    (line : String) (hInv : ParserInv target s f w) (hw : wfStep w line = some w') :
    ParserInv target (skipStep target s line) (fullStep f line) w' := by
  obtain ⟨hem, hcur⟩ := hInv
  cases hcl : classify line with
  | termHeader =>
    simp only [wfStep, hcl] at hw
    by_cases hok : stanzaOk w = true
    case neg => simp [hok] at hw
    rw [if_pos hok] at hw
    rw [Option.some_inj] at hw
    subst hw
    rcases hcur with ⟨hsc, hfc, hint, hskip⟩ | ⟨t, t', hsc, hfc, hint, hid, hns0, hns1⟩
    · refine ⟨?_, Or.inr ⟨{}, {}, ?_, ?_, rfl, ?_, ?_, ?_⟩⟩
      · simp only [skipStep, fullStep, hcl, hsc, hfc]
        exact hem
      · simp [skipStep, hcl, hsc]
      · simp [fullStep, hcl, hfc]
      · simp
      · intro _; exact ⟨rfl, by simp [skipStep, hcl, hsc], rfl⟩
      · intro h1; exact absurd h1 (by simp)
    · simp only [stanzaOk, hint, Bool.not_true, Bool.false_or, Bool.and_eq_true,
        beq_iff_eq] at hok
      obtain ⟨hns, hid1⟩ := hok
      obtain ⟨v, hv', hv, hdisj⟩ := hns1 hns
      rcases hdisj with ⟨hvt, hskip, hteq⟩ | ⟨hvt, hskip⟩
      · have hidsome : t.id.isSome = true := by rw [hteq]; exact hid hid1
        obtain ⟨i, hi⟩ := Option.isSome_iff_exists.mp hidsome
        refine ⟨?_, Or.inr ⟨{}, {}, ?_, ?_, rfl, ?_, ?_, ?_⟩⟩
        · simp only [skipStep, fullStep, hcl, hsc, hfc, hskip, hi]
          rw [filterTarget_append, hem, hteq]
          simp [filterTarget, hv', hvt]
        · simp [skipStep, hcl, hsc, hskip, hi]
        · simp [fullStep, hcl, hfc]
        · simp
        · intro _; exact ⟨rfl, by simp [skipStep, hcl, hsc, hskip, hi], rfl⟩
        · intro h1; exact absurd h1 (by simp)
      · refine ⟨?_, Or.inr ⟨{}, {}, ?_, ?_, rfl, ?_, ?_, ?_⟩⟩
        · simp only [skipStep, fullStep, hcl, hsc, hfc, hskip]
          rw [filterTarget_append, hem]
          simp [filterTarget, hv', hvt]
        · simp [skipStep, hcl, hsc, hskip]
        · simp [fullStep, hcl, hfc]
        · simp
        · intro _; exact ⟨rfl, by simp [skipStep, hcl, hsc, hskip], rfl⟩
        · intro h1; exact absurd h1 (by simp)
  | otherHeader =>
    simp only [wfStep, hcl] at hw
    by_cases hok : stanzaOk w = true
    case neg => simp [hok] at hw
    rw [if_pos hok] at hw
    rw [Option.some_inj] at hw
    subst hw
    rcases hcur with ⟨hsc, hfc, hint, hskip⟩ | ⟨t, t', hsc, hfc, hint, hid, hns0, hns1⟩
    · refine ⟨?_, Or.inl ⟨?_, ?_, rfl, ?_⟩⟩
      · simp only [skipStep, fullStep, hcl, hsc, hfc]
        exact hem
      · simp [skipStep, hcl, hsc]
      · simp [fullStep, hcl, hfc]
      · simp [skipStep, hcl, hsc]
    · simp only [stanzaOk, hint, Bool.not_true, Bool.false_or, Bool.and_eq_true,
        beq_iff_eq] at hok
      obtain ⟨hns, hid1⟩ := hok
      obtain ⟨v, hv', hv, hdisj⟩ := hns1 hns
      rcases hdisj with ⟨hvt, hskip, hteq⟩ | ⟨hvt, hskip⟩
      · have hidsome : t.id.isSome = true := by rw [hteq]; exact hid hid1
        obtain ⟨i, hi⟩ := Option.isSome_iff_exists.mp hidsome
        refine ⟨?_, Or.inl ⟨?_, ?_, rfl, ?_⟩⟩
        · simp only [skipStep, fullStep, hcl, hsc, hfc, hskip, hi]
          rw [filterTarget_append, hem, hteq]
          simp [filterTarget, hv', hvt]
        · simp [skipStep, hcl, hsc, hskip, hi]
        · simp [fullStep, hcl, hfc]
        · simp [skipStep, hcl, hsc, hskip, hi]
      · refine ⟨?_, Or.inl ⟨?_, ?_, rfl, ?_⟩⟩
        · simp only [skipStep, fullStep, hcl, hsc, hfc, hskip]
          rw [filterTarget_append, hem]
          simp [filterTarget, hv', hvt]
        · simp [skipStep, hcl, hsc, hskip]
        · simp [fullStep, hcl, hfc]
        · simp [skipStep, hcl, hsc, hskip]
  | kv k v =>
    simp only [wfStep, hcl] at hw
    rcases hcur with ⟨hsc, hfc, hint, hskip⟩ | ⟨t, t', hsc, hfc, hint, hid, hns0, hns1⟩
    · rw [if_neg (by simp [hint]), Option.some_inj] at hw
      subst hw
      refine ⟨?_, Or.inl ⟨?_, ?_, hint, ?_⟩⟩
      · simp only [skipStep, fullStep, hcl, hsc, hfc]
        exact hem
      · simp [skipStep, hcl, hsc]
      · simp [fullStep, hcl, hfc]
      · simp [skipStep, hcl, hsc, hskip]
    · rw [if_pos hint, Option.some_inj] at hw
      have hwin : w'.inTerm = true := by rw [← hw]; exact hint
      have hwns : w'.nsCount = if (k == "namespace") = true then w.nsCount + 1 else w.nsCount := by
        rw [← hw]
      have hwid : w'.idSeen = (w.idSeen || k == "id") := by rw [← hw]
      cases hsk : s.skip with
      | true =>
        refine ⟨?_, Or.inr ⟨t, processKV t' k v, ?_, ?_, hwin, ?_, ?_, ?_⟩⟩
        · simp only [skipStep, fullStep, hcl, hsc, hfc, hsk]
          exact hem
        · simp [skipStep, hcl, hsc, hsk]
        · simp [fullStep, hcl, hfc]
        · intro hseen
          rw [hwid] at hseen
          by_cases hkid : k = "id"
          · subst hkid; simp [processKV]
          · have hws : w.idSeen = true := by simpa [hkid] using hseen
            exact processKV_id_isSome t' k v (hid hws)
        · intro h0
          rw [hwns] at h0
          by_cases hkns : k = "namespace"
          · simp [hkns] at h0
          · rw [if_neg (by simp [hkns])] at h0
            obtain ⟨_, hskf, _⟩ := hns0 h0
            rw [hsk] at hskf
            exact absurd hskf (by simp)
        · intro h1
          rw [hwns] at h1
          by_cases hkns : k = "namespace"
          · rw [if_pos (by simp [hkns])] at h1
            have h0 : w.nsCount = 0 := by omega
            obtain ⟨_, hskf, _⟩ := hns0 h0
            rw [hsk] at hskf
            exact absurd hskf (by simp)
          · rw [if_neg (by simp [hkns])] at h1
            obtain ⟨v0, hv0', hv0, hdisj⟩ := hns1 h1
            rcases hdisj with ⟨_, hskf, _⟩ | ⟨hvne, _⟩
            · rw [hsk] at hskf
              exact absurd hskf (by simp)
            · refine ⟨v0, ?_, hv0, Or.inr ⟨hvne, ?_⟩⟩
              · rw [processKV_ns_preserved t' k v hkns]
                exact hv0'
              · simp [skipStep, hcl, hsc, hsk]
      | false =>
        by_cases hkns : k = "namespace"
        · subst hkns
          by_cases hvt : v = target
          · refine ⟨?_, Or.inr ⟨processKV t "namespace" v, processKV t' "namespace" v,
              ?_, ?_, hwin, ?_, ?_, ?_⟩⟩
            · simp only [skipStep, fullStep, hcl, hsc, hfc, hsk]
              rw [if_neg (by simp [hvt])]
              exact hem
            · simp [skipStep, hcl, hsc, hsk, hvt]
            · simp [fullStep, hcl, hfc]
            · intro hseen
              rw [hwid] at hseen
              have hws : w.idSeen = true := by simpa using hseen
              exact processKV_id_isSome t' _ v (hid hws)
            · intro h0
              rw [hwns, if_pos (by simp)] at h0
              omega
            · intro h1
              rw [hwns, if_pos (by simp)] at h1
              have h0 : w.nsCount = 0 := by omega
              obtain ⟨hteq, _, _⟩ := hns0 h0
              refine ⟨v, by simp [processKV], by simp [processKV],
                Or.inl ⟨hvt, ?_, by rw [hteq]⟩⟩
              simp [skipStep, hcl, hsc, hsk, hvt]
          · refine ⟨?_, Or.inr ⟨processKV t "namespace" v, processKV t' "namespace" v,
              ?_, ?_, hwin, ?_, ?_, ?_⟩⟩
            · simp only [skipStep, fullStep, hcl, hsc, hfc, hsk]
              rw [if_pos (by simp [hvt])]
              exact hem
            · simp [skipStep, hcl, hsc, hsk, hvt]
            · simp [fullStep, hcl, hfc]
            · intro hseen
              rw [hwid] at hseen
              have hws : w.idSeen = true := by simpa using hseen
              exact processKV_id_isSome t' _ v (hid hws)
            · intro h0
              rw [hwns, if_pos (by simp)] at h0
              omega
            · intro h1
              rw [hwns, if_pos (by simp)] at h1
              have h0 : w.nsCount = 0 := by omega
              obtain ⟨hteq, _, _⟩ := hns0 h0
              refine ⟨v, by simp [processKV], by simp [processKV], Or.inr ⟨hvt, ?_⟩⟩
              simp [skipStep, hcl, hsc, hsk, hvt]
        · refine ⟨?_, Or.inr ⟨processKV t k v, processKV t' k v, ?_, ?_, hwin, ?_, ?_, ?_⟩⟩
          · simp only [skipStep, fullStep, hcl, hsc, hfc, hsk]
            rw [if_neg (by simp [hkns])]
            exact hem
          · simp [skipStep, hcl, hsc, hsk, hkns]
          · simp [fullStep, hcl, hfc]
          · intro hseen
            rw [hwid] at hseen
            by_cases hkid : k = "id"
            · subst hkid; simp [processKV]
            · have hws : w.idSeen = true := by simpa [hkid] using hseen
              exact processKV_id_isSome t' k v (hid hws)
          · intro h0
            rw [hwns, if_neg (by simp [hkns])] at h0
            obtain ⟨hteq, _, hnone⟩ := hns0 h0
            refine ⟨by rw [hteq], ?_, ?_⟩
            · simp [skipStep, hcl, hsc, hsk, hkns]
            · rw [processKV_ns_preserved t' k v hkns]
              exact hnone
          · intro h1
            rw [hwns, if_neg (by simp [hkns])] at h1
            obtain ⟨v0, hv0', hv0, hdisj⟩ := hns1 h1
            rcases hdisj with ⟨hveq, _, hteq⟩ | ⟨_, hskt⟩
            · refine ⟨v0, ?_, ?_, Or.inl ⟨hveq, ?_, by rw [hteq]⟩⟩
              · rw [processKV_ns_preserved t' k v hkns]
                exact hv0'
              · rw [processKV_ns_preserved t k v hkns]
                exact hv0
              · simp [skipStep, hcl, hsc, hsk, hkns]
            · rw [hsk] at hskt
              exact absurd hskt (by simp)
  | blank =>
    simp only [wfStep, hcl, Option.some_inj] at hw
    subst hw
    refine ⟨?_, ?_⟩
    · simp only [skipStep, fullStep, hcl]
      exact hem
    · rcases hcur with ⟨hsc, hfc, hint, hskip⟩ | ⟨t, t', hsc, hfc, hint, hid, hns0, hns1⟩
      · exact Or.inl ⟨by simp [skipStep, hcl, hsc], by simp [fullStep, hcl, hfc], hint,
          by simp [skipStep, hcl, hskip]⟩
      · exact Or.inr ⟨t, t', by simp [skipStep, hcl, hsc], by simp [fullStep, hcl, hfc], hint,
          hid, by simpa [skipStep, hcl] using hns0, by simpa [skipStep, hcl] using hns1⟩

/-- The simulation invariant is preserved along any well-formed line list. -/
theorem parserInv_run (target : String) (lines : List String) :
    ∀ (s : SkipSt) (f : FullSt) (w w' : WfSt),
      ParserInv target s f w → lines.foldlM wfStep w = some w' →
      ParserInv target (lines.foldl (skipStep target) s) (lines.foldl fullStep f) w' := by
  induction lines with
  | nil =>
    intro s f w w' hInv hw
    simp only [List.foldlM_nil, pure, Option.some_inj] at hw
    subst hw
    simpa using hInv
  | cons l rest ih =>
    intro s f w w' hInv hw
    rw [List.foldlM_cons] at hw
    cases hstep : wfStep w l with
    | none =>
      rw [hstep] at hw
      simp at hw
    | some w1 =>
      rw [hstep] at hw
      simp only [Option.bind_eq_bind, Option.some_bind] at hw
      exact ih _ _ _ _ (parserInv_step target s f w w1 l hInv hstep) hw

end GoKG

namespace GoKG

/-- Claim C1 (code bug): the spec says that for two Gene entities sharing a
non-null symbol, after the consolidation pass exactly one Gene with that
symbol remains, carrying the union of identifiers and source files.  The code
violates this: because `MATCH (g1:Gene), (g2:Gene)` yields both orderings of
the duplicate pair, each gene is treated as the redundant one of some row, so
on `tp53Store` the pass `DETACH DELETE`s *both* TP53 genes and destroys every
annotation edge — zero genes with symbol TP53 remain instead of one. -/
theorem c1_consolidation_deletes_both_tp53_genes :
    ((consolidate_duplicate_genes tp53Store).genes.filter
        (fun g => g.symbol == some "TP53")).length = 0 ∧
    (consolidate_duplicate_genes tp53Store).genes = [] ∧
    (consolidate_duplicate_genes tp53Store).annEdges = [] := by
  decide

/-- Claim C3 (code bug): the spec says no edge that exists only on the
redundant gene is lost when the redundant gene is deleted.  On `brca1Store`
the edge to `GO:0000011` exists only on the redundant gene (node 11); after
the pass no `ANNOTATED_WITH` edge to `GO:0000011` exists anywhere in the
store (the symmetric `DETACH DELETE` destroys the moved copy as well). -/
theorem c3_consolidation_loses_redundant_gene_edge :
    ((consolidate_duplicate_genes brca1Store).annEdges.any
        (fun e => e.goId == "GO:0000011")) = false ∧
    (consolidate_duplicate_genes brca1Store).annEdges = [] := by
  decide

/-- Claim C4 (confirmed): on a store in which no two distinct Gene entities
share a non-null symbol, `_consolidate_duplicate_genes` is a no-op — the
duplicate `MATCH` produces no rows, so no entity is merged or deleted and no
attribute or edge is modified. -/
theorem c4_consolidation_noop_without_duplicates (s : GeneStore)
    (h : ∀ a ∈ s.genes, ∀ b ∈ s.genes,
      a.nodeId ≠ b.nodeId → ¬(a.symbol.isSome ∧ a.symbol = b.symbol)) :
    consolidate_duplicate_genes s = s := by
  have hmatch : ∀ a ∈ s.genes, ∀ b ∈ s.genes, symbolMatch a b = false := by
    intro a ha b hb
    by_contra hne
    have hm : symbolMatch a b = true := by
      cases hmb : symbolMatch a b
      · exact absurd hmb hne
      · rfl
    simp only [symbolMatch, Bool.and_eq_true, bne_iff_ne, ne_eq, beq_iff_eq] at hm
    exact h a ha b hb hm.1.1.1 ⟨hm.1.1.2, hm.2⟩
  have hrows : duplicatePairs s = [] := by
    simp only [duplicatePairs, List.flatMap_eq_nil_iff, List.map_eq_nil_iff,
      List.filter_eq_nil_iff]
    intro a ha b hb
    simp [hmatch a ha b hb]
  simp only [consolidate_duplicate_genes, hrows, List.flatMap_nil, List.foldl_nil,
    List.filter_nil, runSetPhase]

/-- Witness for C4: `distinctSymbolStore` satisfies the no-duplicate
hypothesis, and consolidation leaves it untouched. -/
theorem c4_consolidation_noop_witness :
    consolidate_duplicate_genes distinctSymbolStore = distinctSymbolStore :=
  c4_consolidation_noop_without_duplicates distinctSymbolStore (by decide)

end GoKG

namespace GoKG

/-- Claim C5 (corrected, counterexample): the skip-flag parser and the
parse-fully-then-filter reference do *not* agree on every stanza stream.  On
`c5CounterLines` the first stanza has no `namespace:` line: the skip flag is
never set, so the skip parser emits the record at the next stanza boundary,
while filtering the full parse by namespace drops it. -/
theorem c5_counterexample_no_namespace_stanza :
    parse_obo_file "biological_process" c5CounterLines ≠
      Except.ok (specFullParseFiltered "biological_process" c5CounterLines) := by
  decide

/-- Claim C5 (amended): on every stanza stream in which each stanza carries
exactly one `namespace:` line and an `id:` line, the skip-flag early-exit
parser emits exactly the records obtained by parsing every stanza fully and
keeping those whose namespace equals the target partition. -/
theorem c5_skip_parse_equals_filtered_full_parse (target : String)
    (lines : List String) (hwf : wfStream lines = true) :
    parse_obo_file target lines = Except.ok (specFullParseFiltered target lines) := by
  unfold wfStream at hwf
  cases hrun : lines.foldlM wfStep ({} : WfSt) with
  | none =>
    rw [hrun] at hwf
    simp at hwf
  | some wEnd =>
    rw [hrun] at hwf
    have hInv0 : ParserInv target {} {} {} := ⟨rfl, Or.inl ⟨rfl, rfl, rfl, rfl⟩⟩
    have hInv := parserInv_run target lines {} {} {} wEnd hInv0 hrun
    obtain ⟨hem, hcur⟩ := hInv
    simp only [parse_obo_file, specFullParseFiltered, fullParseAll]
    rcases hcur with ⟨hsc, hfc, _, _⟩ | ⟨t, t', hsc, hfc, hint, hid, hns0, hns1⟩
    · rw [hsc, hfc, hem]
    · simp only [stanzaOk, hint, Bool.not_true, Bool.false_or, Bool.and_eq_true,
        beq_iff_eq] at hwf
      obtain ⟨hns, hid1⟩ := hwf
      obtain ⟨v, hv', hv, hdisj⟩ := hns1 hns
      rcases hdisj with ⟨hvt, _, hteq⟩ | ⟨hvt, _⟩
      · subst hteq
        have hidsome : t.id.isSome = true := hid hid1
        obtain ⟨i, hi⟩ := Option.isSome_iff_exists.mp hidsome
        rw [hsc, hfc]
        rw [filterTarget_append, hem]
        simp [filterTarget, hv, hvt, hi]
      · rw [hsc, hfc]
        rw [filterTarget_append, hem]
        simp [filterTarget, hv, hv', hvt]

/-- Witness for C5: `c5WitnessLines` is well formed (two target stanzas, one
other-partition stanza), the equivalence applies, and exactly the two target
terms are produced. -/
theorem c5_skip_parse_witness :
    wfStream c5WitnessLines = true ∧
    parse_obo_file "biological_process" c5WitnessLines =
      Except.ok (specFullParseFiltered "biological_process" c5WitnessLines) ∧
    (specFullParseFiltered "biological_process" c5WitnessLines).length = 2 :=
  ⟨by decide,
   c5_skip_parse_equals_filtered_full_parse "biological_process" c5WitnessLines (by decide),
   by decide⟩

end GoKG

namespace GoKG

/-- Ids absent from the name map stay absent throughout the namespace-table
load (the load only ever deletes name-map entries). -/
theorem nsLoad_none_mono (nsFull : String) (lines : List String) :
    ∀ (p : (String → Option String) × (String → Option String)) (id : String),
      p.1 id = none → ((lines.foldl (nsLoadStep nsFull) p).1) id = none := by
  induction lines with
  | nil =>
    intro p id h
    simpa using h
  | cons l rest ih =>
    intro p id h
    rw [List.foldl_cons]
    refine ih _ id ?_
    unfold nsLoadStep
    cases hp : parseTwoColRow l with
    | none => simpa using h
    | some gv =>
      obtain ⟨g, v⟩ := gv
      by_cases h1 : v = nsFull
      · simpa [h1] using h
      · by_cases h2 : (p.1 g).isSome = true
        · simp only [h1, if_false, h2, if_true]
          by_cases h3 : id = g <;> simp [h3, h]
        · simpa [h1, h2] using h

/-- A well-formed namespace-table row naming a foreign namespace removes its
id from the name map for good. -/
theorem nsLoad_deletes (nsFull : String) (lines : List String) :
    ∀ (p : (String → Option String) × (String → Option String)) (id v line : String),
      line ∈ lines → parseTwoColRow line = some (id, v) → ¬ v = nsFull →
      ((lines.foldl (nsLoadStep nsFull) p).1) id = none := by
  induction lines with
  | nil =>
    intro p id v line hmem
    simp at hmem
  | cons l rest ih =>
    intro p id v line hmem hp hv
    rw [List.foldl_cons]
    rcases List.mem_cons.mp hmem with rfl | hmem'
    · apply nsLoad_none_mono
      unfold nsLoadStep
      rw [hp]
      simp only [if_neg hv]
      by_cases h2 : (p.1 id).isSome = true
      · simp [h2]
      · cases hmi : p.1 id with
        | none => simp [h2, hmi]
        | some x =>
          rw [hmi] at h2
          simp at h2
    · exact ih _ id v line hmem' hp hv

/-- Claim C6 (amended): after `_create_reference_dataframes` finishes, no key
of the id→name lookup is assigned a namespace other than the target by any
well-formed row of the id→namespace table — any such row would have deleted
the key.  (The claim's stronger form — that the table positively assigns the
target namespace to every name-map key — fails when the table simply does not
mention an id; see the counterexample.) -/
theorem c6_name_map_keys_never_offnamespace (nsFull : String)
    (nameLines nsLines altLines : List String) (id : String)
    (hsome : ((create_reference_dataframes nsFull nameLines nsLines
      altLines).go_name_lookup id).isSome = true) :
    ∀ line ∈ nsLines.drop 1, ∀ v, parseTwoColRow line = some (id, v) → v = nsFull := by
  intro line hmem v hp
  by_contra hv
  have hnone : ((loadNamespaceLookups nsFull nameLines nsLines).1) id = none :=
    nsLoad_deletes nsFull (nsLines.drop 1) (loadNameLookup nameLines, fun _ => none)
      id v line hmem hp hv
  have heq : (create_reference_dataframes nsFull nameLines nsLines
      altLines).go_name_lookup = (loadNamespaceLookups nsFull nameLines nsLines).1 := rfl
  rw [heq, hnone] at hsome
  simp at hsome

/-- Claim C6 (counterexample): with a name table containing `GO:0000001` and
a namespace table with no data rows, the id survives in the name map although
the namespace table does not assign it the target namespace — refuting the
claim that every name-map key is positively assigned the target namespace
regardless of the tables' contents. -/
theorem c6_counterexample_unmentioned_id_survives :
    ((create_reference_dataframes "biological_process" c6NameLines c6NsLines
        c6AltLines).go_name_lookup "GO:0000001").isSome = true ∧
    ¬ ∃ line ∈ c6NsLines.drop 1,
        parseTwoColRow line = some ("GO:0000001", "biological_process") := by
  constructor
  · decide
  · simp [c6NsLines]

/-- Witness for C6's amended theorem on concrete tables in which the id is
assigned the target namespace. -/
theorem c6_name_map_witness :
    ((create_reference_dataframes "biological_process" c6NameLines c6WitnessNsLines
        c6AltLines).go_name_lookup "GO:0000001").isSome = true ∧
    ∀ line ∈ c6WitnessNsLines.drop 1, ∀ v,
      parseTwoColRow line = some ("GO:0000001", v) → v = "biological_process" :=
  ⟨by decide, c6_name_map_keys_never_offnamespace "biological_process" c6NameLines
    c6WitnessNsLines c6AltLines "GO:0000001" (by decide)⟩

end GoKG

namespace GoKG

/-- Claim C10 (confirmed): a GAF data row is collected for the target
partition if and only if it has at least 15 columns and its aspect column
equals the partition's one-letter code **or** its qualifier column equals the
partition's qualifier.  In particular `c10DemoLine` — aspect `C` (the
cellular-component code, not bp's `P`) but qualifier `involved_in` — is still
ingested under the biological-process partition. -/
theorem c10_gaf_row_selected_iff_aspect_or_qualifier :
    (∀ (ns : GoNamespace) (lines : List String),
      import_gene_annotations_scan ns lines = lines.filterMap (gafRowSelected ns)) ∧
    import_gene_annotations_scan .bp [c10DemoLine] =
      [mkGafRow (pySplitChar (pyTrim c10DemoLine) '\t')] ∧
    (mkGafRow (pySplitChar (pyTrim c10DemoLine) '\t')).aspect = "C" ∧
    namespaceAspect .bp = "P" ∧
    (mkGafRow (pySplitChar (pyTrim c10DemoLine) '\t')).qualifier =
      namespaceQualifier .bp := by
  refine ⟨?_, by decide, by decide, rfl, by decide⟩
  intro ns lines
  induction lines with
  | nil => rfl
  | cons l rest ih =>
    simp only [import_gene_annotations_scan, gafRowSelected, List.filterMap_cons]
    split
    · exact ih
    · split
      · split
        · simp [ih]
        · simp [ih]
      · simp [ih]

end GoKG

namespace GoKG

/-- Claim C9 (confirmed): if any partition has fewer terms than its
configured minimum (25000/3000/10000), or the multi-namespace gene count is
below the 10000 floor (the code's `multi_genes < 10000` check; at exactly the
floor the run proceeds, matching the "need >10,000" log line with the floor
read as 9999), `create_interconnections` aborts before creating any derived
edge: it returns `false` and the store unchanged. -/
theorem c9_interconnector_fail_fast (s : IStore)
    (h : namespaceTermCount s "biological_process" < 25000 ∨
         namespaceTermCount s "cellular_component" < 3000 ∨
         namespaceTermCount s "molecular_function" < 10000 ∨
         multiNamespaceGenes s < 10000) :
    create_interconnections s = (false, s) := by
  have hv : validate_prerequisites s = false := by
    unfold validate_prerequisites
    rcases h with h | h | h | h <;>
      simp [decide_eq_false (Nat.not_le.mpr h)]
  unfold create_interconnections
  rw [hv]
  simp

/-- Witness for C9: the empty store fails the biological-process minimum and
the run aborts with the store untouched. -/
theorem c9_interconnector_fail_fast_witness :
    namespaceTermCount c9EmptyStore "biological_process" < 25000 ∧
    create_interconnections c9EmptyStore = (false, c9EmptyStore) :=
  ⟨by decide, c9_interconnector_fail_fast c9EmptyStore (Or.inl (by decide))⟩

/-- Filtering distributes over `flatMap`. -/
theorem filter_flatMap_eq {α β : Type} (l : List α) (f : α → List β) (P : β → Bool) :
    (l.flatMap f).filter P = l.flatMap fun a => (f a).filter P := by
  induction l with
  | nil => rfl
  | cons a rest ih => simp [List.flatMap_cons, List.filter_append, ih]

/-- A `flatMap` collapses to one call when every other element contributes
nothing. -/
theorem flatMap_eq_of_single {α β : Type} (l : List α) (f : α → List β) (p : α)
    (hmem : p ∈ l) (hNodup : l.Nodup) (hother : ∀ a ∈ l, a ≠ p → f a = []) :
    l.flatMap f = f p := by
  induction l with
  | nil => simp at hmem
  | cons a rest ih =>
    rcases List.mem_cons.mp hmem with rfl | hmem'
    · have hrest : ∀ b ∈ rest, f b = [] := by
        intro b hb
        refine hother b (List.mem_cons_of_mem _ hb) ?_
        intro hbp
        subst hbp
        exact (List.nodup_cons.mp hNodup).1 hb
      simp [List.flatMap_cons, List.flatMap_eq_nil_iff.mpr hrest]
    · have ha : f a = [] := by
        refine hother a (List.mem_cons_self _ _) ?_
        intro hap
        subst hap
        exact (List.nodup_cons.mp hNodup).1 hmem'
      rw [List.flatMap_cons, ha, List.nil_append]
      exact ih hmem' (List.nodup_cons.mp hNodup).2
        (fun b hb hbp => hother b (List.mem_cons_of_mem _ hb) hbp)

/-- In a duplicate-free list, a filter whose predicate characterises exactly
one member returns that singleton. -/
theorem filter_eq_singleton {α : Type} (l : List α) (P : α → Bool) (q : α)
    (hNodup : l.Nodup) (hq : q ∈ l) (hiff : ∀ a ∈ l, P a = true ↔ a = q) :
    l.filter P = [q] := by
  induction l with
  | nil => simp at hq
  | cons a rest ih =>
    rcases List.mem_cons.mp hq with heq | hq'
    · subst heq
      have hPa : P q = true := (hiff q (List.mem_cons_self _ _)).mpr rfl
      have hrest : rest.filter P = [] := by
        rw [List.filter_eq_nil_iff]
        intro b hb hPb
        have hbq : b = q := (hiff b (List.mem_cons_of_mem _ hb)).mp hPb
        subst hbq
        exact (List.nodup_cons.mp hNodup).1 hb
      simp [hPa, hrest]
    · have hPa : P a = false := by
        by_contra hc
        have hPt : P a = true := by
          cases hpa : P a
          · exact absurd hpa hc
          · rfl
        have haq : a = q := (hiff a (List.mem_cons_self _ _)).mp hPt
        subst haq
        exact (List.nodup_cons.mp hNodup).1 hq'
      rw [List.filter_cons_of_neg (by simp [hPa])]
      exact ih (List.nodup_cons.mp hNodup).2 hq'
        (fun b hb => hiff b (List.mem_cons_of_mem _ hb))

end GoKG

namespace GoKG

/-- Claim C8 (confirmed): for a biological-process term and a
cellular-component term with at least `min_shared_genes` (3) distinct shared
annotating genes and no existing `OCCURS_IN` edge between them,
`create_bp_cc_connections` creates exactly one derived edge for the pair,
carrying the shared-gene count and the `CASE` confidence tier — "high" at or
above 50 shared genes, "medium" at or above 10, else "low". -/
theorem c8_derived_edge_confidence_tiers (s : IStore) (p q : ITerm)
    (hNodup : (s.terms.map ITerm.go_id).Nodup)
    (hp : p ∈ s.terms) (hq : q ∈ s.terms)
    (hpns : p.ns = "biological_process") (hqns : q.ns = "cellular_component")
    (hmin : min_shared_genes ≤ sharedGenes s p.go_id q.go_id)
    (hnoex : derivedExists s "OCCURS_IN" p.go_id q.go_id = false) :
    ((create_bp_cc_connections s).1.derived.filter fun e =>
        e.relType == "OCCURS_IN" && e.source == p.go_id && e.target == q.go_id) =
      [mkDerivedEdge s "OCCURS_IN" high_confidence medium_confidence (p, q)] := by
  have hTermsNodup : s.terms.Nodup := hNodup.of_map
  have hinj : ∀ a ∈ s.terms, ∀ b ∈ s.terms, a.go_id = b.go_id → a = b := by
    intro a ha b hb hab
    exact List.inj_on_of_nodup_map hNodup ha hb hab
  have hpq : p ≠ q := by
    intro h
    rw [h, hqns] at hpns
    exact absurd hpns (by decide)
  have hgid : ¬ p.go_id = q.go_id := fun h => hpq (hinj p hp q hq h)
  set cond : DerivedEdge → Bool :=
    fun e => e.relType == "OCCURS_IN" && e.source == p.go_id && e.target == q.go_id with hcond
  have hold : s.derived.filter cond = [] := by
    rw [List.filter_eq_nil_iff]
    intro e he hce
    have : s.derived.any
        (fun e => e.relType == "OCCURS_IN" && e.source == p.go_id && e.target == q.go_id) =
        true := List.any_eq_true.mpr ⟨e, he, hce⟩
    rw [derivedExists] at hnoex
    rw [this] at hnoex
    exact absurd hnoex (by simp)
  have hmain :
      (connectionPairs s "biological_process" "cellular_component" "OCCURS_IN"
        min_shared_genes).filter
          (fun pq => cond (mkDerivedEdge s "OCCURS_IN" high_confidence medium_confidence pq)) =
        [(p, q)] := by
    unfold connectionPairs
    rw [filter_flatMap_eq]
    have hstep :
        ((s.terms.filter fun a => a.ns == "biological_process").flatMap fun a =>
          (((s.terms.filter fun b =>
              b.ns == "cellular_component" && a.go_id != b.go_id &&
              !(derivedExists s "OCCURS_IN" a.go_id b.go_id) &&
              decide (min_shared_genes ≤ sharedGenes s a.go_id b.go_id)).map
            fun b => (a, b)).filter
              (fun pq => cond (mkDerivedEdge s "OCCURS_IN" high_confidence
                medium_confidence pq)))) =
        (((s.terms.filter fun b =>
            b.ns == "cellular_component" && p.go_id != b.go_id &&
            !(derivedExists s "OCCURS_IN" p.go_id b.go_id) &&
            decide (min_shared_genes ≤ sharedGenes s p.go_id b.go_id)).map
          fun b => (p, b)).filter
            (fun pq => cond (mkDerivedEdge s "OCCURS_IN" high_confidence
              medium_confidence pq))) := by
      apply flatMap_eq_of_single
      · rw [List.mem_filter]
        exact ⟨hp, by simp [hpns]⟩
      · exact hTermsNodup.filter _
      · intro a ha hap
        have haT : a ∈ s.terms := (List.mem_filter.mp ha).1
        rw [List.filter_eq_nil_iff]
        intro x hx hcx
        obtain ⟨b, hb, rfl⟩ := List.mem_map.mp hx
        have hgoal : a.go_id = p.go_id := by
          simp only [hcond, mkDerivedEdge, Bool.and_eq_true, beq_iff_eq] at hcx
          exact hcx.1.2
        exact hap (hinj a haT p hp hgoal)
    rw [hstep]
    have hsingle :
        ((s.terms.filter fun b =>
            b.ns == "cellular_component" && p.go_id != b.go_id &&
            !(derivedExists s "OCCURS_IN" p.go_id b.go_id) &&
            decide (min_shared_genes ≤ sharedGenes s p.go_id b.go_id)).filter
          (fun b => cond (mkDerivedEdge s "OCCURS_IN" high_confidence
            medium_confidence (p, b)))) = [q] := by
      apply filter_eq_singleton
      · exact hTermsNodup.filter _
      · rw [List.mem_filter]
        refine ⟨hq, ?_⟩
        simp [hqns, hgid, hnoex, hmin]
      · intro b hb
        have hbT : b ∈ s.terms := (List.mem_filter.mp hb).1
        constructor
        · intro hcb
          simp only [hcond, mkDerivedEdge, Bool.and_eq_true, beq_iff_eq] at hcb
          exact hinj b hbT q hq hcb.2
        · intro hbq
          subst hbq
          simp [hcond, mkDerivedEdge]
    rw [List.filter_map]
    rw [show ((fun pq => cond (mkDerivedEdge s "OCCURS_IN" high_confidence
        medium_confidence pq)) ∘ (fun b => (p, b))) =
      (fun b => cond (mkDerivedEdge s "OCCURS_IN" high_confidence
        medium_confidence (p, b))) from rfl]
    rw [hsingle]
    rfl
  have hfinal :
      (create_bp_cc_connections s).1.derived =
        s.derived ++ (connectionPairs s "biological_process" "cellular_component"
          "OCCURS_IN" min_shared_genes).map
            (mkDerivedEdge s "OCCURS_IN" high_confidence medium_confidence) := rfl
  rw [show ((create_bp_cc_connections s).1.derived.filter fun e =>
      e.relType == "OCCURS_IN" && e.source == p.go_id && e.target == q.go_id) =
    (create_bp_cc_connections s).1.derived.filter cond from rfl]
  rw [hfinal, List.filter_append, hold, List.nil_append, List.filter_map]
  rw [show ((cond ∘ mkDerivedEdge s "OCCURS_IN" high_confidence medium_confidence)) =
    (fun pq => cond (mkDerivedEdge s "OCCURS_IN" high_confidence medium_confidence pq))
    from rfl]
  rw [hmain]
  rfl

end GoKG

namespace GoKG

/-- Witness for C8: on `c8WitnessStore` (3 shared genes, no existing edge)
exactly one `OCCURS_IN` edge is created, tagged "low". -/
theorem c8_derived_edge_witness :
    ((create_bp_cc_connections c8WitnessStore).1.derived.filter fun e =>
        e.relType == "OCCURS_IN" && e.source == "GO:0006915" &&
          e.target == "GO:0005739") =
      [{ relType := "OCCURS_IN", source := "GO:0006915", target := "GO:0005739",
         shared_gene_count := 3, confidence := "low",
         created_by := "go_interconnector" }] ∧
    sharedGenes c8WitnessStore "GO:0006915" "GO:0005739" = 3 :=
  ⟨c8_derived_edge_confidence_tiers c8WitnessStore
    { go_id := "GO:0006915", ns := "biological_process" }
    { go_id := "GO:0005739", ns := "cellular_component" }
    (by decide) (by decide) (by decide) rfl rfl (by decide) (by decide),
   by decide⟩

end GoKG

namespace GoKG

/-- Batches cover the record list exactly. -/
theorem chunksGo_flatten {α : Type} (bs : Nat) :
    ∀ (fuel : Nat) (l : List α), (chunksGo bs fuel l).flatten = l := by
  intro fuel
  induction fuel with
  | zero =>
    intro l
    cases l <;> simp [chunksGo]
  | succ f ih =>
    intro l
    cases l with
    | nil => simp [chunksGo]
    | cons x xs =>
      show (((x :: xs).take bs) :: chunksGo bs f ((x :: xs).drop bs)).flatten = x :: xs
      rw [List.flatten_cons, ih, List.take_append_drop]

/-- The per-batch `len(batch)` counters sum to the record count. -/
theorem chunks_length_sum {α : Type} (bs : Nat) (l : List α) :
    ((chunks bs l).map List.length).sum = l.length := by
  have h := chunksGo_flatten bs l.length l
  calc ((chunks bs l).map List.length).sum
      = (chunks bs l).flatten.length := (List.length_flatten _).symm
    _ = l.length := by rw [chunks, h]

/-- Claim C7 (amended): the numeric-id (phase 6) and symbol (phase 7)
ingestions query the count of already-ingested edges carrying their
source-file tag and process exactly the input minus that many leading
records of each category, per category; the accession ingestion (phase 8),
however, performs **no** count-based skip and processes every parsed record
(deduplicating per record instead). -/
theorem c7_resume_skip_by_category (q ts : String) (s : XrefStore) (lines : List String) :
    ((import_collapsed_entrez ts s lines).2.hierarchy_processed =
        ((separateCollapsed lines).1.drop
          (countCollapsedHierarchy s "collapsed_go.entrez")).length ∧
      (import_collapsed_entrez ts s lines).2.gene_processed =
        ((separateCollapsed lines).2.drop
          (countAnnotBySource s "collapsed_go.entrez")).length) ∧
    ((import_collapsed_symbol q ts s lines).2.hierarchy_processed =
        ((separateCollapsed lines).1.drop
          (countCollapsedHierarchy s "collapsed_go.symbol")).length ∧
      (import_collapsed_symbol q ts s lines).2.gene_processed =
        ((separateCollapsed lines).2.drop
          (countAnnotBySource s "collapsed_go.symbol")).length) ∧
    ((run_phase8_uniprot_cross_references ts s lines).2.1 =
        (parse_uniprot_file lines).1.length ∧
      (run_phase8_uniprot_cross_references ts s lines).2.2 =
        (parse_uniprot_file lines).2.length) := by
  have hdrop : ∀ (n : Nat) (l : List (String × String)),
      (if 0 < n then l.drop n else l) = l.drop n := by
    intro n l
    cases n with
    | zero => simp
    | succ m => simp
  have hempty : ∀ (l : List (String × String)), l.isEmpty = true → l = [] := by
    intro l hl
    cases l with
    | nil => rfl
    | cons a as => simp [List.isEmpty] at hl
  refine ⟨⟨?_, ?_⟩, ⟨?_, ?_⟩, ?_, ?_⟩
  · show (if (separateCollapsed lines).1.isEmpty then 0
      else ((chunks 3000 (if 0 < countCollapsedHierarchy s "collapsed_go.entrez"
        then (separateCollapsed lines).1.drop (countCollapsedHierarchy s "collapsed_go.entrez")
        else (separateCollapsed lines).1)).map List.length).sum) = _
    rw [hdrop]
    by_cases he : (separateCollapsed lines).1.isEmpty = true
    · rw [if_pos he, hempty _ he]
      simp
    · rw [if_neg he, chunks_length_sum]
  · show (if (separateCollapsed lines).2.isEmpty then 0
      else ((chunks 10000 (if 0 < countAnnotBySource s "collapsed_go.entrez"
        then (separateCollapsed lines).2.drop (countAnnotBySource s "collapsed_go.entrez")
        else (separateCollapsed lines).2)).map List.length).sum) = _
    rw [hdrop]
    by_cases he : (separateCollapsed lines).2.isEmpty = true
    · rw [if_pos he, hempty _ he]
      simp
    · rw [if_neg he, chunks_length_sum]
  · show (if (separateCollapsed lines).1.isEmpty then 0
      else ((chunks 3000 (if 0 < countCollapsedHierarchy s "collapsed_go.symbol"
        then (separateCollapsed lines).1.drop (countCollapsedHierarchy s "collapsed_go.symbol")
        else (separateCollapsed lines).1)).map List.length).sum) = _
    rw [hdrop]
    by_cases he : (separateCollapsed lines).1.isEmpty = true
    · rw [if_pos he, hempty _ he]
      simp
    · rw [if_neg he, chunks_length_sum]
  · show (if (separateCollapsed lines).2.isEmpty then 0
      else ((chunks 2000 (if 0 < countAnnotBySource s "collapsed_go.symbol"
        then (separateCollapsed lines).2.drop (countAnnotBySource s "collapsed_go.symbol")
        else (separateCollapsed lines).2)).map List.length).sum) = _
    rw [hdrop]
    by_cases he : (separateCollapsed lines).2.isEmpty = true
    · rw [if_pos he, hempty _ he]
      simp
    · rw [if_neg he, chunks_length_sum]
  · exact chunks_length_sum 1000 (parse_uniprot_file lines).1
  · exact chunks_length_sum 2000 (parse_uniprot_file lines).2

/-- Claim C7 (counterexample): on a store already holding one
uniprot-sourced annotation edge and an input of two gene rows, phase 8
processes both records — not the one record that skipping the first
N = 1 would leave, refuting the claim for the accession identifier space. -/
theorem c7_counterexample_uniprot_no_skip :
    ¬ ((run_phase8_uniprot_cross_references "ts" c7Store c7Lines).2.2 =
      ((parse_uniprot_file c7Lines).2.drop
        (countAnnotBySource c7Store "collapsed_go.uniprot")).length) := by
  decide

end GoKG

namespace GoKG

theorem importOneRel_fold (ts : String) :
    ∀ (l : List (String × OboRel)) (s : TermStore),
      (l.foldl (importOneRel ts) s).terms = s.terms ∧
      (l.foldl (importOneRel ts) s).altMappings = s.altMappings ∧
      (l.foldl (importOneRel ts) s).rels.length = s.rels.length +
        (l.filter fun rel => (s.terms.any fun t0 => t0.go_id == rel.1) &&
          (s.terms.any fun t0 => t0.go_id == rel.2.target)).length := by
  intro l
  induction l with
  | nil => intro s; simp
  | cons r rest ih =>
    intro s
    rw [List.foldl_cons]
    by_cases hc : ((s.terms.any fun t0 => t0.go_id == r.1) &&
        (s.terms.any fun t0 => t0.go_id == r.2.target)) = true
    · obtain ⟨h1, h2, h3⟩ := ih (importOneRel ts s r)
      have hterms : (importOneRel ts s r).terms = s.terms := by
        simp only [importOneRel]
        rw [if_pos hc]
      have halt : (importOneRel ts s r).altMappings = s.altMappings := by
        simp only [importOneRel]
        rw [if_pos hc]
      have hrels : (importOneRel ts s r).rels.length = s.rels.length + 1 := by
        simp only [importOneRel]
        rw [if_pos hc]
        simp
      rw [hterms] at h3
      refine ⟨h1.trans hterms, h2.trans halt, ?_⟩
      rw [h3, hrels, List.filter_cons]
      rw [if_pos hc]
      simp only [List.length_cons]
      omega
    · have hstep : importOneRel ts s r = s := by
        simp only [importOneRel]
        rw [if_neg hc]
      rw [hstep]
      obtain ⟨h1, h2, h3⟩ := ih s
      refine ⟨h1, h2, ?_⟩
      rw [h3, List.filter_cons]
      rw [if_neg hc]

theorem import_go_relationships_spec (ts : String) (termsList : List OboTerm)
    (s : TermStore) :
    (import_go_relationships ts termsList s).terms = s.terms ∧
    (import_go_relationships ts termsList s).altMappings = s.altMappings ∧
    (import_go_relationships ts termsList s).rels.length =
      s.rels.length + validRelCount termsList s.terms :=
  importOneRel_fold ts (collectRels termsList) s

end GoKG

namespace GoKG

theorem enrich_go_id (nl : String → Option String) (ca : String → List String)
    (ts : String) (t : OboTerm) :
    (enrichTerm nl ca ts t).1.go_id = termId t := rfl

theorem importTermBatch_rels (nl : String → Option String)
    (ca : String → List String) (ts : String) (s : TermStore)
    (b : List OboTerm) :
    (importTermBatch nl ca ts s b).rels = s.rels := by
  simp only [importTermBatch]
  split <;> rfl

theorem termBatches_rels (nl : String → Option String)
    (ca : String → List String) (ts : String) :
    ∀ (bl : List (List OboTerm)) (s : TermStore),
      (bl.foldl (importTermBatch nl ca ts) s).rels = s.rels := by
  intro bl
  induction bl with
  | nil => intro s; rfl
  | cons b rest ih =>
    intro s
    rw [List.foldl_cons, ih, importTermBatch_rels]

theorem importTermBatch_new (nl : String → Option String)
    (ca : String → List String) (ts : String) (s : TermStore)
    (b : List OboTerm) (hnd : (b.map termId).Nodup)
    (hdisj : ∀ t ∈ b, ∀ t0 ∈ s.terms, ¬ t0.go_id = termId t) :
    (importTermBatch nl ca ts s b).terms =
      s.terms ++ b.map fun t => (enrichTerm nl ca ts t).1 := by
  have hids : (((b.map (enrichTerm nl ca ts)).map fun p => p.1).map
      fun n => n.go_id) = b.map termId := by
    simp only [List.map_map]
    rfl
  have hany : (((b.map (enrichTerm nl ca ts)).map fun p => p.1).any
      fun n => s.terms.any fun t0 => t0.go_id == n.go_id) = false := by
    rw [List.any_eq_false]
    intro n hn
    obtain ⟨p, hp, rfl⟩ := List.mem_map.mp hn
    obtain ⟨t, ht, rfl⟩ := List.mem_map.mp hp
    intro hcon
    obtain ⟨t0, ht0, hbeq⟩ := List.any_eq_true.mp hcon
    exact hdisj t ht t0 ht0 (beq_iff_eq.mp hbeq)
  simp only [importTermBatch]
  rw [if_neg]
  · simp only [List.map_map]
    rfl
  · intro hcontra
    rw [Bool.or_eq_true] at hcontra
    rcases hcontra with h | h
    · rw [hany] at h
      exact Bool.false_ne_true h
    · rw [Bool.not_eq_true', decide_eq_false_iff_not] at h
      exact h (by rw [hids]; exact hnd)

theorem termBatches_all_new (nl : String → Option String)
    (ca : String → List String) (ts : String) :
    ∀ (bl : List (List OboTerm)) (s : TermStore),
      (bl.flatten.map termId).Nodup →
      (∀ t ∈ bl.flatten, ∀ t0 ∈ s.terms, ¬ t0.go_id = termId t) →
      (bl.foldl (importTermBatch nl ca ts) s).terms =
        s.terms ++ bl.flatten.map fun t => (enrichTerm nl ca ts t).1 := by
  intro bl
  induction bl with
  | nil => intro s _ _; simp
  | cons b rest ih =>
    intro s hnd hdisj
    rw [List.flatten_cons, List.map_append, List.nodup_append] at hnd
    obtain ⟨hndb, hndr, hdis⟩ := hnd
    have hdisjb : ∀ t ∈ b, ∀ t0 ∈ s.terms, ¬ t0.go_id = termId t := by
      intro t ht
      exact hdisj t (by rw [List.flatten_cons]; exact List.mem_append_left _ ht)
    have hbatch := importTermBatch_new nl ca ts s b hndb hdisjb
    have hdisj2 : ∀ t ∈ rest.flatten, ∀ t0 ∈ (importTermBatch nl ca ts s b).terms,
        ¬ t0.go_id = termId t := by
      intro t ht t0 ht0
      rw [hbatch] at ht0
      rcases List.mem_append.mp ht0 with h0 | h0
      · exact hdisj t (by rw [List.flatten_cons]; exact List.mem_append_right _ ht) t0 h0
      · obtain ⟨t', ht', rfl⟩ := List.mem_map.mp h0
        intro he
        have heq : termId t' = termId t := he
        have hmem1 : termId t ∈ List.map termId b := by
          rw [← heq]
          exact List.mem_map_of_mem termId ht'
        exact hdis hmem1 (List.mem_map_of_mem termId ht)
    rw [List.foldl_cons, ih (importTermBatch nl ca ts s b) hndr hdisj2, hbatch,
      List.flatten_cons, List.map_append, List.append_assoc]

theorem importTermBatch_nil (nl : String → Option String)
    (ca : String → List String) (ts : String) (s : TermStore) :
    importTermBatch nl ca ts s [] = s := by
  simp [importTermBatch]

theorem importTermBatch_hit (nl : String → Option String)
    (ca : String → List String) (ts : String) (s : TermStore)
    (b : List OboTerm) (t : OboTerm) (ht : t ∈ b)
    (hex : ∃ t0 ∈ s.terms, t0.go_id = termId t) :
    importTermBatch nl ca ts s b = s := by
  simp only [importTermBatch]
  split
  · rfl
  · rename_i hc
    exfalso
    apply hc
    rw [Bool.or_eq_true]
    left
    rw [List.any_eq_true]
    refine ⟨(enrichTerm nl ca ts t).1, ?_, ?_⟩
    · exact List.mem_map_of_mem _ (List.mem_map_of_mem _ ht)
    · rw [List.any_eq_true]
      obtain ⟨t0, ht0, he⟩ := hex
      exact ⟨t0, ht0, beq_iff_eq.mpr he⟩

theorem termBatches_noop (nl : String → Option String)
    (ca : String → List String) (ts : String) :
    ∀ (bl : List (List OboTerm)) (s : TermStore),
      (∀ t ∈ bl.flatten, ∃ t0 ∈ s.terms, t0.go_id = termId t) →
      bl.foldl (importTermBatch nl ca ts) s = s := by
  intro bl
  induction bl with
  | nil => intro s _; rfl
  | cons b rest ih =>
    intro s hex
    rw [List.foldl_cons]
    have hb : importTermBatch nl ca ts s b = s := by
      cases b with
      | nil => exact importTermBatch_nil nl ca ts s
      | cons t bt =>
        apply importTermBatch_hit nl ca ts s (t :: bt) t (List.mem_cons_self _ _)
        exact hex t (by rw [List.flatten_cons]; exact List.mem_append_left _ (List.mem_cons_self _ _))
    rw [hb]
    exact ih s fun t ht => hex t (by rw [List.flatten_cons]; exact List.mem_append_right _ ht)

end GoKG

namespace GoKG

/-- **C2** (amended). When the parsed term list carries pairwise-distinct
ids, a second run of the phase-1 import on unchanged inputs creates no
second `GOTerm` node and no second `AltGOMapping` (the uniqueness
constraint rolls every re-`CREATE` batch back), but `_import_go_relationships`
has no existence check and re-creates every valid stanza relationship edge:
the edge count after the second run is exactly twice the count after the
first, refuting the claimed edge-count equality whenever any relationship
was imported at all. -/
theorem c2_second_run_duplicates_relationship_edges
    (nl : String → Option String) (ca : String → List String)
    (ts1 ts2 : String) (bs : Nat) (termsList : List OboTerm)
    (hnd : (termsList.map termId).Nodup) :
    (runPhase1Import nl ca ts2 bs termsList
        (runPhase1Import nl ca ts1 bs termsList emptyTermStore)).terms =
      (runPhase1Import nl ca ts1 bs termsList emptyTermStore).terms ∧
    (runPhase1Import nl ca ts2 bs termsList
        (runPhase1Import nl ca ts1 bs termsList emptyTermStore)).altMappings =
      (runPhase1Import nl ca ts1 bs termsList emptyTermStore).altMappings ∧
    (runPhase1Import nl ca ts2 bs termsList
        (runPhase1Import nl ca ts1 bs termsList emptyTermStore)).rels.length =
      2 * (runPhase1Import nl ca ts1 bs termsList emptyTermStore).rels.length := by
  have hflat : (chunks bs termsList).flatten = termsList :=
    chunksGo_flatten bs termsList.length termsList
  set T1 := import_go_terms nl ca ts1 bs termsList emptyTermStore with hT1
  set S1 := runPhase1Import nl ca ts1 bs termsList emptyTermStore with hS1
  have ht1 : T1.terms = termsList.map fun t => (enrichTerm nl ca ts1 t).1 := by
    have h := termBatches_all_new nl ca ts1 (chunks bs termsList) emptyTermStore
      (by rw [hflat]; exact hnd) (by intro t _ t0 h0; cases h0)
    rw [hflat] at h
    exact h
  have ht1rels : T1.rels = [] :=
    termBatches_rels nl ca ts1 (chunks bs termsList) emptyTermStore
  have hspec1 : S1.terms = T1.terms ∧ S1.altMappings = T1.altMappings ∧
      S1.rels.length = T1.rels.length + validRelCount termsList T1.terms :=
    import_go_relationships_spec ts1 termsList T1
  have hnoop : import_go_terms nl ca ts2 bs termsList S1 = S1 := by
    apply termBatches_noop
    intro t ht
    rw [hflat] at ht
    refine ⟨(enrichTerm nl ca ts1 t).1, ?_, rfl⟩
    rw [hspec1.1, ht1]
    exact List.mem_map_of_mem _ ht
  have hrun2 : runPhase1Import nl ca ts2 bs termsList S1 =
      import_go_relationships ts2 termsList S1 := by
    unfold runPhase1Import
    rw [hnoop]
  have hspec2 : (import_go_relationships ts2 termsList S1).terms = S1.terms ∧
      (import_go_relationships ts2 termsList S1).altMappings = S1.altMappings ∧
      (import_go_relationships ts2 termsList S1).rels.length =
        S1.rels.length + validRelCount termsList S1.terms :=
    import_go_relationships_spec ts2 termsList S1
  have hlen1 : S1.rels.length = validRelCount termsList T1.terms := by
    have h := hspec1.2.2
    rw [ht1rels] at h
    simpa using h
  refine ⟨?_, ?_, ?_⟩
  · rw [hrun2]
    exact hspec2.1
  · rw [hrun2]
    exact hspec2.2.1
  · rw [hrun2, hspec2.2.2, hspec1.1]
    omega

/-- **C2** counterexample. On a two-term input whose single `is_a`
relationship has both endpoints present, running the phase-1 import a
second time on the unchanged input changes the edge count (1 edge after
the first run, 2 after the second): the pipeline is not idempotent. -/
theorem c2_counterexample_rerun_changes_edge_count :
    (runPhase1Import (fun _ => none) (fun _ => []) "ts" 500 c2Terms
        (runPhase1Import (fun _ => none) (fun _ => []) "ts" 500 c2Terms
          emptyTermStore)).rels.length ≠
      (runPhase1Import (fun _ => none) (fun _ => []) "ts" 500 c2Terms
        emptyTermStore).rels.length := by
  decide

/-- Witness for the amended C2 theorem at the concrete two-term input. -/
theorem c2_second_run_witness :
    (c2Terms.map termId).Nodup ∧
    (runPhase1Import (fun _ => none) (fun _ => []) "t2" 500 c2Terms
        (runPhase1Import (fun _ => none) (fun _ => []) "t1" 500 c2Terms
          emptyTermStore)).rels.length =
      2 * (runPhase1Import (fun _ => none) (fun _ => []) "t1" 500 c2Terms
        emptyTermStore).rels.length :=
  ⟨by decide,
   (c2_second_run_duplicates_relationship_edges (fun _ => none) (fun _ => [])
     "t1" "t2" 500 c2Terms (by decide)).2.2⟩

end GoKG
